import Mathlib

/-!
Verification of the single-site-browser lifecycle manager
(`single-site-browser.py`) against its natural-language specification.

The development shallowly embeds the Python source:
* strings are Lean `String`s, manipulated through their `List Char` data;
* filesystem paths are component lists (`List String`), absolute from the
  root, with `Path.home()` an abstract `home : List String` parameter;
* the filesystem is an explicit state (association lists of regular files,
  symlinks and directories);
* every side-effecting operation returns the new filesystem state, the list
  of externally visible actions it performed (in order), and an optional
  raised exception, mirroring Python's early-exit exception propagation;
* network I/O (`requests.get`) is an oracle `String → Option HttpResponse`,
  where `none` models a raised connection error and a response carries the
  `raise_for_status` success flag together with its body;
* the zip/JSON decoding of an extension's `manifest.json`
  (`ZipFile`/`json.loads`/key lookups) is an oracle
  `String → Option String` from downloaded bytes to the declared Gecko
  extension id, `none` modelling any decoding exception.
-/

namespace SSB

/-! ## String machinery

`Python str.replace(pat, rep)` replaces every non-overlapping occurrence of
`pat`, scanning left to right.  The recursion is bounded by an explicit
fuel argument so that the definition is structural (hence evaluable by the
kernel); the top-level wrapper passes the input length, which the scan can
never exhaust, as each step consumes at least one character. -/

def pyReplaceGo (pat rep : List Char) : Nat → List Char → List Char
  | _, [] => []
  | 0, s => s
  | fuel + 1, c :: rest =>
    if pat.isPrefixOf (c :: rest) then
      rep ++ pyReplaceGo pat rep fuel (rest.drop (pat.length - 1))
    else
      c :: pyReplaceGo pat rep fuel rest

/-- Python `s.replace(pat, rep)` for a nonempty pattern: every
non-overlapping occurrence of `pat` in `s` is replaced by `rep`, scanning
left to right.  (The Python behaviour on an empty pattern is not modelled;
the source only replaces the nonempty patterns `"http://"`, `"https://"`
and `"/"`.) -/
def pyReplace (s pat rep : String) : String :=
  ⟨pyReplaceGo pat.data rep.data s.data.length s.data⟩

/-! ## Identity Resolver (`SsbFirefox.__init__`) -/

structure SsbFirefox where
  url : String
  name : String
deriving Repr, DecidableEq

/-- `SsbFirefox.__init__`: keep the url; take the explicit name verbatim if
given, otherwise derive it as
`url.replace("http://", "").replace("https://", "").replace("/", "_")`. -/
def SsbFirefox.init (url : String) (name : Option String) : SsbFirefox :=
  { url := url
    name :=
      match name with
      | none => pyReplace (pyReplace (pyReplace url "http://" "") "https://" "") "/" "_"
      | some n => n }

/-- `normalize_url` from the source: if the url starts with the four
characters `http` it is returned unchanged, otherwise `https://` is
prepended. -/
def normalize_url (url : String) : String :=
  if "http".data.isPrefixOf url.data then url else "https://" ++ url

/-! ## Specification-side definitions (for refinement comparison)

These two definitions follow the words of the specification, not the code,
and exist only to be compared with the code-derived definitions above. -/

/-- Modelled from the spec's words, for comparison with the code: derive
the name from the url by removing a leading `http://` or `https://`
(first match only, case-sensitive), then replacing every `/` with `_`. -/
def specDeriveName (url : String) : String :=
  let stripped :=
    if "http://".data.isPrefixOf url.data then url.data.drop 7
    else if "https://".data.isPrefixOf url.data then url.data.drop 8
    else url.data
  ⟨stripped.map (fun c => if c = '/' then '_' else c)⟩

/-- Modelled from the spec's words, for comparison with the code: a url
"has a scheme prefix" when it begins with `http://` or `https://`. -/
def hasSchemePrefixSpec (url : String) : Bool :=
  "http://".data.isPrefixOf url.data || "https://".data.isPrefixOf url.data

/-- The remainder of a url after its leading scheme, if any: what the
specification's derivation rule maps over after stripping the prefix. -/
def schemeTail (url : String) : List Char :=
  if "http://".data.isPrefixOf url.data then url.data.drop 7
  else if "https://".data.isPrefixOf url.data then url.data.drop 8
  else url.data

/-- The url with only a leading `http://` (not `https://`) stripped; the
operand on which the code's first `replace("http://", "")` pass must find
no further occurrence for the spec's leading-strip reading to coincide
with the code. -/
def httpTail (url : String) : List Char :=
  if "http://".data.isPrefixOf url.data then url.data.drop 7 else url.data

/-- A derived-name input is "scheme-clean" when neither `http://` nor
`https://` occurs in the url beyond a single leading scheme prefix. -/
def schemeClean (url : String) : Prop :=
  ¬ ("http://".data <:+: httpTail url) ∧ ¬ ("https://".data <:+: schemeTail url)

instance (url : String) : Decidable (schemeClean url) := by
  unfold schemeClean; infer_instance

/-! ## Path and filesystem model -/

abbrev Path := List String

/-- The whole-component common prefix length of two absolute paths, as
`os.path.relpath` computes it. -/
def commonLen : Path → Path → Nat
  | a :: as, b :: bs => if a = b then commonLen as bs + 1 else 0
  | _, _ => 0

/-- `os.path.relpath(target, start)` for absolute component paths: climb
out of the non-shared part of `start` with `..` entries, then descend into
the non-shared part of `target`.  (The empty-result case, which Python
renders as `.`, does not arise for the paths of this tool.) -/
def relpath (target start : Path) : Path :=
  List.replicate (start.length - commonLen target start) ".." ++
    target.drop (commonLen target start)

/-- Path normalization as performed by `Path.resolve()` on a path without
intermediate symlinks: each `..` component removes the preceding
component.  (`.` components and symlink chasing do not arise for the paths
of this tool and are not modelled.) -/
def normalizePath (p : Path) : Path :=
  p.foldl (fun acc c => if c = ".." then acc.dropLast else acc ++ [c]) []

/-- The filesystem state: regular files (path ↦ contents, most recent
write first), symbolic links (path ↦ stored link value, a relative path
resolved against the link's parent directory), and directories. -/
structure FS where
  files : List (Path × String)
  links : List (Path × Path)
  dirs : List Path
deriving Repr, DecidableEq

def FS.empty : FS := ⟨[], [], []⟩

def lookupA {β : Type} (p : Path) : List (Path × β) → Option β
  | [] => none
  | (q, v) :: t => if q = p then some v else lookupA p t

def eraseKey {β : Type} (p : Path) : List (Path × β) → List (Path × β)
  | [] => []
  | (q, v) :: t => if q = p then eraseKey p t else (q, v) :: eraseKey p t

def FS.lookupFile (fs : FS) (p : Path) : Option String := lookupA p fs.files

def FS.lookupLink (fs : FS) (p : Path) : Option Path := lookupA p fs.links

/-- `Path.is_symlink()`. -/
def FS.is_symlink (fs : FS) (p : Path) : Bool := (fs.lookupLink p).isSome

/-- `Path.exists()` for the paths this tool checks (none of which it ever
creates as symlinks): a regular file or directory is present at `p`. -/
def FS.pathExists (fs : FS) (p : Path) : Bool :=
  (fs.lookupFile p).isSome || fs.dirs.contains p

/-- `Path.resolve()` of a symlink: the stored relative link value resolved
against the link's parent directory.  (Only applied to paths that are
symlinks.) -/
def FS.resolveLink (fs : FS) (p : Path) : Path :=
  match fs.lookupLink p with
  | some v => normalizePath (p.dropLast ++ v)
  | none => p

/-- `open(p, "w")` / `open(p, "wb")` followed by one full write. -/
def FS.writeFile (fs : FS) (p : Path) (c : String) : FS :=
  { fs with files := (p, c) :: fs.files }

/-- `p.mkdir(parents=True, exist_ok=True)`: the directory and all its
ancestors are present afterwards. -/
def FS.mkdirP (fs : FS) (p : Path) : FS :=
  { fs with dirs := p.inits ++ fs.dirs }

/-- `p.symlink_to(v)`. -/
def FS.addLink (fs : FS) (p v : Path) : FS :=
  { fs with links := (p, v) :: fs.links }

/-- Presence of anything (file, link or directory) at or below `p`: the
condition under which `shutil.rmtree(p)` finds its argument. -/
def FS.treeExists (fs : FS) (p : Path) : Bool :=
  fs.files.any (fun e => p.isPrefixOf e.1) ||
  fs.links.any (fun e => p.isPrefixOf e.1) ||
  fs.dirs.any (fun d => p.isPrefixOf d)

def FS.removeTree (fs : FS) (p : Path) : FS :=
  { files := fs.files.filter (fun e => !(p.isPrefixOf e.1)),
    links := fs.links.filter (fun e => !(p.isPrefixOf e.1)),
    dirs := fs.dirs.filter (fun d => !(p.isPrefixOf d)) }

/-! ## Effects, errors and results -/

inductive Err where
  | fileExists (p : Path)
  | requestError (url : String)
  | httpStatus (url : String)
  | xpiLinkNotFound
  | manifestError
  | calledProcessError (cmd : List String) (code : Nat)
  | fileNotFound (p : Path)
  | isADirectory (p : Path)
deriving Repr, DecidableEq

/-- The externally visible actions a lifecycle operation performs, in
order. -/
inductive Event where
  | mkdirP (p : Path)
  | writeFile (p : Path) (contents : String)
  | symlinkTo (p : Path) (value : Path)
  | httpGet (url : String)
  | launch (cmd : List String)
  | rmtree (p : Path)
  | removeFile (p : Path)
  | updateDesktopDatabase (dir : Path)
deriving Repr, DecidableEq

/-- The outcome of a (possibly raising) operation: the filesystem it
leaves behind, the actions it performed in order, and the exception it
raised, if any. -/
structure Result where
  fs : FS
  events : List Event
  err : Option Err
deriving Repr, DecidableEq

/-- Sequential composition with Python's exception propagation: once an
exception is raised the rest of the statements do not execute. -/
def Result.andThen (r : Result) (f : FS → Result) : Result :=
  match r.err with
  | some _ => r
  | none =>
    let r2 := f r.fs
    ⟨r2.fs, r.events ++ r2.events, r2.err⟩

/-- `shutil.rmtree(p)`: raises `FileNotFoundError` when nothing exists at
`p`; the removal attempt itself is recorded either way. -/
def rmtreeOp (p : Path) (fs : FS) : Result :=
  if fs.treeExists p then ⟨fs.removeTree p, [.rmtree p], none⟩
  else ⟨fs, [.rmtree p], some (.fileNotFound p)⟩

/-- `os.remove(p)`. -/
def removeFileOp (p : Path) (fs : FS) : Result :=
  if (fs.lookupFile p).isSome then
    ⟨{ fs with files := eraseKey p fs.files }, [.removeFile p], none⟩
  else if fs.dirs.contains p then ⟨fs, [.removeFile p], some (.isADirectory p)⟩
  else ⟨fs, [.removeFile p], some (.fileNotFound p)⟩

/-- `contextlib.suppress(FileNotFoundError)` around one operation. -/
def suppressNotFound (r : Result) : Result :=
  match r.err with
  | some (.fileNotFound _) => ⟨r.fs, r.events, none⟩
  | _ => r

/-- A network response: the flag consulted by `raise_for_status`, and the
body bytes as `content`. -/
structure HttpResponse where
  statusOk : Bool
  content : String
deriving Repr, DecidableEq

/-- The network as an oracle: `none` models `requests.get` itself raising
(connection failure). -/
def Net : Type := String → Option HttpResponse

/-- The zip/JSON decoding of a downloaded extension's `manifest.json` down
to `manifest["browser_specific_settings"]["gecko"]["id"]`, as an oracle
from the downloaded bytes to the declared Gecko extension id; `none`
models any `ZipFile`/`json.loads`/key-lookup exception, which the
installer does not catch. -/
def ManifestReader : Type := String → Option String

/-! ## Path layout (`SsbFirefox` properties) -/

/-- `str()` of an absolute `PosixPath` given by its components. -/
def pathStr (p : Path) : String := p.foldl (fun a c => a ++ "/" ++ c) ""

def SsbFirefox.config_path (home : Path) (s : SsbFirefox) : Path :=
  home ++ [".local", "share", "ssb", s.name]

def SsbFirefox.profile_path (home : Path) (s : SsbFirefox) : Path :=
  s.config_path home ++ ["profile"]

def SsbFirefox.favicon_path (home : Path) (s : SsbFirefox) : Path :=
  s.config_path home ++ ["favicon.ico"]

def SsbFirefox.wm_class (s : SsbFirefox) : String := "SSB_" ++ s.name

def SsbFirefox.desktop_file_symlink (home : Path) (s : SsbFirefox) : Path :=
  home ++ [".local", "share", "applications", s.name ++ ".desktop"]

def SsbFirefox.desktop_file (home : Path) (s : SsbFirefox) : Path :=
  s.config_path home ++ ["application-menu-item.desktop"]

def SsbFirefox.command (home : Path) (s : SsbFirefox) : List String :=
  ["firefox", "-profile", pathStr (s.profile_path home), "-no-remote",
   "-new-instance", s.url, "--class", s.wm_class]

/-! ## File-content templates (module-level constants of the source) -/

/-- `user_chrome_contents` (after `inspect.cleandoc`). -/
def user_chrome_contents : String :=
  "/* #nav-bar, #identity-box, #tabbrowser-tabs, #TabsToolbar \x7b */\n/*     visibility: collapse !important;                      */\n/* \x7d                                                         */"

/-- `user_js_contents` (after `inspect.cleandoc`). -/
def user_js_contents : String :=
  "user_pref(\"browser.cache.disk.enable\", false);\nuser_pref(\"browser.cache.disk.capacity\", 0);\nuser_pref(\"browser.cache.disk.filesystem_reported\", 1);\nuser_pref(\"browser.cache.disk.smart_size.enabled\", false);\nuser_pref(\"browser.cache.disk.smart_size.first_run\", false);\nuser_pref(\"browser.cache.disk.smart_size.use_old_max\", false);\nuser_pref(\"browser.ctrlTab.previews\", true);\nuser_pref(\"browser.tabs.warnOnClose\", false);\nuser_pref(\"plugin.state.flash\", 2);\nuser_pref(\"toolkit.legacyUserProfileCustomizations.stylesheets\", true);\nuser_pref(\"doh-rollout.doneFirstRun\", true);"

/-- `desktop_file_contents.format(name=..., command=..., icon=...,
wm_class=...)` (template after `inspect.cleandoc`, with the four fields
substituted). -/
def desktop_file_contents (name command icon wm_class : String) : String :=
  "[Desktop Entry]\nVersion=1.0\nName=" ++ name ++
  "\nComment=Comment here\nGenericName=Generic Name here\nKeywords=Semicolon-separated keywords\nExec=" ++
  command ++
  "\nTerminal=false\nX-MultipleArgs=false\nType=Application\nIcon=" ++ icon ++
  "\nCategories=Accessories\nMimeType=\nStartupNotify=true\nStartupWMClass=" ++ wm_class

/-! ## Profile Materializer -/

/-- `SsbFirefox.make_user_css`. -/
def SsbFirefox.make_user_css (home : Path) (s : SsbFirefox) (fs : FS) : Result :=
  let user_chrome := s.profile_path home ++ ["chrome", "userChrome.css"]
  if fs.pathExists user_chrome then ⟨fs, [], none⟩
  else
    ⟨(fs.mkdirP user_chrome.dropLast).writeFile user_chrome user_chrome_contents,
      [.mkdirP user_chrome.dropLast, .writeFile user_chrome user_chrome_contents], none⟩

/-- `SsbFirefox.make_user_js`. -/
def SsbFirefox.make_user_js (home : Path) (s : SsbFirefox) (fs : FS) : Result :=
  let user_js := s.profile_path home ++ ["user.js"]
  if fs.pathExists user_js then ⟨fs, [], none⟩
  else
    ⟨(fs.mkdirP user_js.dropLast).writeFile user_js user_js_contents,
      [.mkdirP user_js.dropLast, .writeFile user_js user_js_contents], none⟩

def addon_url : String := "https://addons.mozilla.org/en-US/firefox/addon/ublock-origin/"

/-- The characters matched by `(?P<link>.*?)` up to the closing quote: the
characters before the first `"`; `none` when a newline (which `.` does not
match) or the end of input comes first, in which case no match starts
here. -/
def splitAtQuote : List Char → Option (List Char × List Char)
  | [] => none
  | c :: rest =>
    if c = '"' then some ([], rest)
    else if c = '\n' then none
    else (splitAtQuote rest).map (fun q => (c :: q.1, q.2))

/-- All matches of `re.finditer('href="(?P<link>.*?)"', html)`, scanning
left to right, non-overlapping, resuming after each match.  The fuel
argument bounds the recursion depth (each step consumes at least one
character); the wrapper passes the input length, which the scan never
exhausts. -/
def scanHrefsGo : Nat → List Char → List (List Char)
  | 0, _ => []
  | _, [] => []
  | fuel + 1, c :: rest =>
    if "href=\"".data.isPrefixOf (c :: rest) then
      match splitAtQuote ((c :: rest).drop 6) with
      | some q => q.1 :: scanHrefsGo fuel q.2
      | none => scanHrefsGo fuel rest
    else scanHrefsGo fuel rest

def scanHrefs (html : String) : List String :=
  (scanHrefsGo html.data.length html.data).map (fun l => ⟨l⟩)

/-- Python's `sub in s` substring test. -/
def containsSub (pat : List Char) : List Char → Bool
  | [] => pat.isEmpty
  | c :: rest => pat.isPrefixOf (c :: rest) || containsSub pat rest

/-- The source's for-loop over the catalog page's hyperlinks: the first
link that ends in `.xpi` and contains `ublock`; `none` models falling
through to the `RuntimeError`. -/
def findXpiLink (html : String) : Option String :=
  (scanHrefs html).find? (fun link =>
    ".xpi".data.isSuffixOf link.data && containsSub "ublock".data link.data)

/-- `SsbFirefox.install_ublock_origin`. -/
def SsbFirefox.install_ublock_origin (home : Path) (s : SsbFirefox)
    (net : Net) (readGeckoId : ManifestReader) (fs : FS) : Result :=
  let sentinel_file := s.profile_path home ++ ["extensions", "ublock_origin_installed"]
  if fs.pathExists sentinel_file then ⟨fs, [], none⟩
  else
    match net addon_url with
    | none => ⟨fs, [.httpGet addon_url], some (.requestError addon_url)⟩
    | some res =>
      if !res.statusOk then ⟨fs, [.httpGet addon_url], some (.httpStatus addon_url)⟩
      else
        match findXpiLink res.content with
        | none => ⟨fs, [.httpGet addon_url], some .xpiLinkNotFound⟩
        | some link =>
          match net link with
          | none => ⟨fs, [.httpGet addon_url, .httpGet link], some (.requestError link)⟩
          | some res2 =>
            if !res2.statusOk then
              ⟨fs, [.httpGet addon_url, .httpGet link], some (.httpStatus link)⟩
            else
              match readGeckoId res2.content with
              | none => ⟨fs, [.httpGet addon_url, .httpGet link], some .manifestError⟩
              | some extension_id =>
                let ublock_origin_xpi := sentinel_file.dropLast ++ [extension_id ++ ".xpi"]
                ⟨((fs.mkdirP ublock_origin_xpi.dropLast).writeFile ublock_origin_xpi
                    res2.content).writeFile sentinel_file "",
                  [.httpGet addon_url, .httpGet link, .mkdirP ublock_origin_xpi.dropLast,
                   .writeFile ublock_origin_xpi res2.content, .writeFile sentinel_file ""],
                  none⟩

/-- `SsbFirefox.generate_profile`. -/
def SsbFirefox.generate_profile (home : Path) (s : SsbFirefox)
    (net : Net) (readGeckoId : ManifestReader) (fs : FS) : Result :=
  ((s.make_user_css home fs).andThen (fun fs1 => s.make_user_js home fs1)).andThen
    (fun fs2 => s.install_ublock_origin home net readGeckoId fs2)

/-! ## Icon Fetcher -/

/-- The remainder after the first `//`, if any. -/
def afterDoubleSlash : List Char → Option (List Char)
  | [] => none
  | c :: rest =>
    if ['/', '/'].isPrefixOf (c :: rest) then some (rest.drop 1)
    else afterDoubleSlash rest

/-- `urllib.parse.urlparse(url).hostname`, modelled for the urls this tool
handles: the text after the first `//` up to the next `/`, `?` or `#`,
after the last `@`, before the first `:`, lowercased.  An absent netloc
gives the empty string (Python would give `None`); IPv6 bracket syntax is
not modelled. -/
def hostname (url : String) : String :=
  match afterDoubleSlash url.data with
  | none => ""
  | some r =>
    let netloc := r.takeWhile (fun c => c != '/' && c != '?' && c != '#')
    let afterUser := (netloc.reverse.takeWhile (fun c => c != '@')).reverse
    ⟨(afterUser.takeWhile (fun c => c != ':')).map Char.toLower⟩

/-- `SsbFirefox.download_icon`.  Note the source performs no
`raise_for_status` here: any received response body is written verbatim. -/
def SsbFirefox.download_icon (home : Path) (s : SsbFirefox) (net : Net) (fs : FS) : Result :=
  let favicon := s.favicon_path home
  if fs.pathExists favicon then ⟨fs, [], none⟩
  else
    let favicon_url := "https://" ++ hostname s.url ++ "/favicon.ico"
    match net favicon_url with
    | none =>
      ⟨fs.mkdirP favicon.dropLast, [.mkdirP favicon.dropLast, .httpGet favicon_url],
        some (.requestError favicon_url)⟩
    | some res =>
      ⟨(fs.mkdirP favicon.dropLast).writeFile favicon res.content,
        [.mkdirP favicon.dropLast, .httpGet favicon_url, .writeFile favicon res.content],
        none⟩

/-! ## Launcher Manager and Lifecycle Orchestrator -/

/-- `SsbFirefox.generate_desktop_file`: validate or create the menu
symlink first, then materialize the profile, then download the favicon,
then (re)write the descriptor. -/
def SsbFirefox.generate_desktop_file (home : Path) (s : SsbFirefox)
    (net : Net) (readGeckoId : ManifestReader) (fs : FS) : Result :=
  let symlink := s.desktop_file_symlink home
  let target := s.desktop_file home
  let relp := relpath target symlink.dropLast
  let step1 : Result :=
    if fs.is_symlink symlink then
      if fs.resolveLink symlink ≠ target then ⟨fs, [], some (.fileExists symlink)⟩
      else ⟨fs, [], none⟩
    else if fs.pathExists symlink then ⟨fs, [], some (.fileExists symlink)⟩
    else ⟨fs.addLink symlink relp, [.symlinkTo symlink relp], none⟩
  ((step1.andThen (fun fs1 => s.generate_profile home net readGeckoId fs1)).andThen
    (fun fs2 => s.download_icon home net fs2)).andThen
    (fun fs3 =>
      let contents := desktop_file_contents s.name
        (String.intercalate " " (s.command home)) (pathStr (s.favicon_path home)) s.wm_class
      ⟨fs3.writeFile target contents, [.writeFile target contents], none⟩)

/-- `SsbFirefox.reload_desktop_files`: `subprocess.check_call` of
`update-desktop-database` over the applications directory; its exit status
is an oracle, and a non-zero status raises. -/
def SsbFirefox.reload_desktop_files (home : Path) (s : SsbFirefox)
    (updateDbExit : Nat) (fs : FS) : Result :=
  ⟨fs, [.updateDesktopDatabase (s.desktop_file_symlink home).dropLast],
    if updateDbExit = 0 then none
    else
      some (.calledProcessError
        ["update-desktop-database", pathStr (s.desktop_file_symlink home).dropLast]
        updateDbExit)⟩

/-- `SsbFirefox.clean`. -/
def SsbFirefox.clean (home : Path) (s : SsbFirefox) (fs : FS) : Result :=
  (suppressNotFound (rmtreeOp (s.config_path home) fs)).andThen
    (fun fs1 => suppressNotFound (removeFileOp (s.desktop_file home) fs1))

/-- `SsbFirefox.run`: materialize the profile, launch the browser and wait
(`subprocess.check_call`), then in a `finally` block remove the profile's
`cache2` directory.  The external browser process is an oracle mapping the
command line and the filesystem to its exit status and the filesystem as
it leaves it; an error raised in the `finally` block replaces the body's
error, as in Python. -/
def SsbFirefox.run (home : Path) (s : SsbFirefox) (net : Net)
    (readGeckoId : ManifestReader) (browser : List String → FS → Nat × FS)
    (fs : FS) : Result :=
  (s.generate_profile home net readGeckoId fs).andThen (fun fs1 =>
    let res := browser (s.command home) fs1
    let bodyErr : Option Err :=
      if res.1 = 0 then none else some (.calledProcessError (s.command home) res.1)
    let r2 := rmtreeOp (s.profile_path home ++ ["cache2"]) res.2
    ⟨r2.fs, .launch (s.command home) :: r2.events, r2.err.orElse (fun _ => bodyErr)⟩)

inductive Mode where
  | applicationMenu
  | runBrowser
  | cleanState
deriving Repr, DecidableEq

/-- `main(args)`: dispatch on `--mode`.  `args.url` has already passed
through `normalize_url`, which argparse applies as the `--url` option's
type. -/
def mainOp (home : Path) (mode : Mode) (url : String) (name : Option String)
    (net : Net) (readGeckoId : ManifestReader)
    (browser : List String → FS → Nat × FS) (updateDbExit : Nat) (fs : FS) : Result :=
  let ssb := SsbFirefox.init url name
  match mode with
  | .applicationMenu =>
    (ssb.generate_desktop_file home net readGeckoId fs).andThen
      (fun fs1 => ssb.reload_desktop_files home updateDbExit fs1)
  | .runBrowser => ssb.run home net readGeckoId browser fs
  | .cleanState => ssb.clean home fs

/-- The frame property claimed for run mode, as a predicate over single
actions: everything run mode does is a fetch, the browser launch, a write
or directory creation under the profile root, or the removal of the
profile's `cache2` subtree — never a symlink creation, file removal, menu
refresh, or a write outside the profile root. -/
def runEventOk (home : Path) (s : SsbFirefox) : Event → Prop
  | .writeFile p _ => s.profile_path home <+: p
  | .mkdirP p => s.profile_path home <+: p
  | .rmtree p => p = s.profile_path home ++ ["cache2"]
  | .httpGet _ => True
  | .launch c => c = s.command home
  | .symlinkTo _ _ => False
  | .removeFile _ => False
  | .updateDesktopDatabase _ => False

/-! ### Lemmas about `pyReplaceGo` -/

theorem pyReplaceGo_of_no_match {pat : List Char} (rep : List Char) :
    ∀ (fuel : Nat) (s : List Char), ¬ (pat <:+: s) → pyReplaceGo pat rep fuel s = s := by
  intro fuel
  induction fuel with
  | zero => intro s _; cases s <;> rfl
  | succ n ih =>
    intro s hs
    cases s with
    | nil => rfl
    | cons c rest =>
      rw [pyReplaceGo]
      have hpre : ¬ pat.isPrefixOf (c :: rest) = true := by
        intro hp
        exact hs ((List.isPrefixOf_iff_prefix.mp hp).isInfix)
      rw [if_neg hpre, ih rest (fun hi => hs (List.infix_cons hi))]

theorem pyReplaceGo_cons_pat {p₀ : Char} {p' : List Char} (rep t : List Char) (fuel : Nat) :
    pyReplaceGo (p₀ :: p') rep (fuel + 1) ((p₀ :: p') ++ t) =
      rep ++ pyReplaceGo (p₀ :: p') rep fuel t := by
  rw [List.cons_append, pyReplaceGo]
  have hpre : (p₀ :: p').isPrefixOf (p₀ :: (p' ++ t)) = true :=
    List.isPrefixOf_iff_prefix.mpr ⟨t, by simp⟩
  rw [if_pos hpre]
  simp [List.drop_left]

theorem pyReplaceGo_slash :
    ∀ (fuel : Nat) (s : List Char), s.length ≤ fuel →
      pyReplaceGo ['/'] ['_'] fuel s = s.map (fun c => if c = '/' then '_' else c) := by
  intro fuel
  induction fuel with
  | zero =>
    intro s hs
    rw [Nat.le_zero, List.length_eq_zero] at hs
    subst hs; rfl
  | succ n ih =>
    intro s hs
    cases s with
    | nil => rfl
    | cons c rest =>
      rw [pyReplaceGo, List.map_cons]
      by_cases hc : c = '/'
      · subst hc
        have hpre : (['/'].isPrefixOf ('/' :: rest)) = true := by
          simp [List.isPrefixOf]
        rw [if_pos hpre, if_pos rfl]
        simpa using ih rest (Nat.le_of_succ_le_succ hs)
      · have hpre : ¬ (['/'].isPrefixOf (c :: rest)) = true := by
          intro hp
          rcases List.cons_prefix_cons.mp (List.isPrefixOf_iff_prefix.mp hp) with ⟨h1, -⟩
          exact hc h1.symm
        rw [if_neg hpre, if_neg hc, ih rest (Nat.le_of_succ_le_succ hs)]

theorem not_http_pre_https (rest : List Char) :
    ¬ ("http://".data <+: "https://".data ++ rest) := by
  intro h
  rcases List.cons_prefix_cons.mp h with ⟨-, h⟩
  rcases List.cons_prefix_cons.mp h with ⟨-, h⟩
  rcases List.cons_prefix_cons.mp h with ⟨-, h⟩
  rcases List.cons_prefix_cons.mp h with ⟨-, h⟩
  rcases List.cons_prefix_cons.mp h with ⟨hc, -⟩
  exact absurd hc (by decide)

/-! ### Claim C1 -/

/-- Claim C1 fails on the code: for the url `https://a.com/http://b`
(already in normalized form), the code removes the embedded non-leading
`http://` occurrence as well, so the resolved name differs from the
specification's leading-prefix-only derivation. -/
theorem C1_counterexample :
    (SsbFirefox.init "https://a.com/http://b" none).name = "a.com_b" ∧
    specDeriveName "https://a.com/http://b" = "a.com_http:__b" ∧
    (SsbFirefox.init "https://a.com/http://b" none).name ≠
      specDeriveName "https://a.com/http://b" := by
  refine ⟨by decide, by decide, by decide⟩

/-- Claim C1, amended: an explicitly supplied name is used verbatim; a
derived name equals the url with every occurrence of `http://` removed,
then every occurrence of `https://` removed (all occurrences, anywhere in
the string, case-sensitive), then every `/` replaced by `_`.  When the url
contains no occurrence of either prefix beyond a single leading scheme,
this coincides with the specification's rule of removing the leading
prefix only. -/
theorem C1_amended_theorem (url : String) (nm : Option String) (h : schemeClean url) :
    (SsbFirefox.init url nm).name =
      (match nm with
       | some n => n
       | none => specDeriveName url) := by
  cases nm with
  | some n => rfl
  | none =>
    obtain ⟨h1, h2⟩ := h
    show pyReplace (pyReplace (pyReplace url "http://" "") "https://" "") "/" "_" =
      specDeriveName url
    by_cases hA : "http://".data.isPrefixOf url.data = true
    · -- url begins with `http://`
      obtain ⟨rest, hrest⟩ := List.isPrefixOf_iff_prefix.mp hA
      have htail : httpTail url = rest := by
        rw [httpTail, if_pos hA, ← hrest]
        simp
      have hstail : schemeTail url = rest := by
        rw [schemeTail, if_pos hA, ← hrest]
        simp
      rw [htail] at h1
      rw [hstail] at h2
      have e1 : pyReplace url "http://" "" = ⟨rest⟩ := by
        show (⟨pyReplaceGo "http://".data [] url.data.length url.data⟩ : String) = ⟨rest⟩
        rw [← hrest]
        have hlen : ("http://".data ++ rest).length = rest.length + 6 + 1 := by
          simp [List.length_append]
        rw [hlen, show "http://".data = 'h' :: "ttp://".data from rfl,
          pyReplaceGo_cons_pat, pyReplaceGo_of_no_match _ _ _ h1, List.nil_append]
      have e2 : pyReplace ⟨rest⟩ "https://" "" = ⟨rest⟩ := by
        show (⟨pyReplaceGo "https://".data [] rest.length rest⟩ : String) = ⟨rest⟩
        rw [pyReplaceGo_of_no_match _ _ _ h2]
      have e3 : pyReplace ⟨rest⟩ "/" "_" =
          ⟨rest.map (fun c => if c = '/' then '_' else c)⟩ := by
        show (⟨pyReplaceGo "/".data "_".data rest.length rest⟩ : String) = _
        rw [show "/".data = ['/'] from rfl, show "_".data = ['_'] from rfl,
          pyReplaceGo_slash rest.length rest (Nat.le_refl _)]
      rw [e1, e2, e3, specDeriveName, if_pos hA, ← hrest]
      simp [List.drop_left' (by simp : "http://".data.length = 7) ]
    · by_cases hB : "https://".data.isPrefixOf url.data = true
      · -- url begins with `https://`
        obtain ⟨rest, hrest⟩ := List.isPrefixOf_iff_prefix.mp hB
        have htail : httpTail url = url.data := by rw [httpTail, if_neg hA]
        have hstail : schemeTail url = rest := by
          rw [schemeTail, if_neg hA, if_pos hB, ← hrest]
          simp
        rw [htail] at h1
        rw [hstail] at h2
        have e1 : pyReplace url "http://" "" = ⟨url.data⟩ := by
          show (⟨pyReplaceGo "http://".data [] url.data.length url.data⟩ : String) = _
          rw [pyReplaceGo_of_no_match _ _ _ h1]
        have e2 : pyReplace ⟨url.data⟩ "https://" "" = ⟨rest⟩ := by
          show (⟨pyReplaceGo "https://".data [] url.data.length url.data⟩ : String) = ⟨rest⟩
          rw [← hrest]
          have hlen : ("https://".data ++ rest).length = rest.length + 7 + 1 := by
            simp [List.length_append]
          rw [hlen, show "https://".data = 'h' :: "ttps://".data from rfl,
            pyReplaceGo_cons_pat, pyReplaceGo_of_no_match _ _ _ h2, List.nil_append]
        have e3 : pyReplace ⟨rest⟩ "/" "_" =
            ⟨rest.map (fun c => if c = '/' then '_' else c)⟩ := by
          show (⟨pyReplaceGo "/".data "_".data rest.length rest⟩ : String) = _
          rw [show "/".data = ['/'] from rfl, show "_".data = ['_'] from rfl,
            pyReplaceGo_slash rest.length rest (Nat.le_refl _)]
        rw [e1, e2, e3, specDeriveName, if_neg hA, if_pos hB, ← hrest]
        simp [List.drop_left' (by simp : "https://".data.length = 8)]
      · -- url begins with neither prefix
        have htail : httpTail url = url.data := by rw [httpTail, if_neg hA]
        have hstail : schemeTail url = url.data := by
          rw [schemeTail, if_neg hA, if_neg hB]
        rw [htail] at h1
        rw [hstail] at h2
        have e1 : pyReplace url "http://" "" = ⟨url.data⟩ := by
          show (⟨pyReplaceGo "http://".data [] url.data.length url.data⟩ : String) = _
          rw [pyReplaceGo_of_no_match _ _ _ h1]
        have e2 : pyReplace ⟨url.data⟩ "https://" "" = ⟨url.data⟩ := by
          show (⟨pyReplaceGo "https://".data [] url.data.length url.data⟩ : String) = _
          rw [pyReplaceGo_of_no_match _ _ _ h2]
        have e3 : pyReplace ⟨url.data⟩ "/" "_" =
            ⟨url.data.map (fun c => if c = '/' then '_' else c)⟩ := by
          show (⟨pyReplaceGo "/".data "_".data url.data.length url.data⟩ : String) = _
          rw [show "/".data = ['/'] from rfl, show "_".data = ['_'] from rfl,
            pyReplaceGo_slash url.data.length url.data (Nat.le_refl _)]
        rw [e1, e2, e3, specDeriveName, if_neg hA, if_neg hB]

/-- Witness for C1: the amended theorem applied to the spec's own
end-to-end example, whose derived name is `mail.google.com_mail_u_0_`. -/
theorem C1_witness :
    schemeClean "https://mail.google.com/mail/u/0/" ∧
    (SsbFirefox.init "https://mail.google.com/mail/u/0/" none).name =
      "mail.google.com_mail_u_0_" := by
  refine ⟨by decide, ?_⟩
  exact ( C1_amended_theorem "https://mail.google.com/mail/u/0/" none (by decide)).trans
    (by decide)

/-! ### Claim C2 -/

/-- Claim C2 fails on the code: `httpbin.org` has no scheme prefix, yet
`normalize_url` returns it unchanged (because it begins with the four
characters `http`) instead of prepending `https://`. -/
theorem C2_counterexample :
    hasSchemePrefixSpec "httpbin.org" = false ∧
    normalize_url "httpbin.org" ≠ "https://" ++ "httpbin.org" := by
  refine ⟨by decide, by decide⟩

/-- Claim C2, amended: normalization is a no-op for every input beginning
with the four characters `http` — in particular (but not only) for every
input with an `http://` or `https://` scheme prefix — and prepends
`https://` exactly once to every input not beginning with `http`;
normalizing twice equals normalizing once. -/
theorem C2_amended_theorem (url : String) :
    ("http".data.isPrefixOf url.data = true → normalize_url url = url) ∧
    (hasSchemePrefixSpec url = true → normalize_url url = url) ∧
    ("http".data.isPrefixOf url.data = false → normalize_url url = "https://" ++ url) ∧
    normalize_url (normalize_url url) = normalize_url url := by
  refine ⟨?_, ?_, ?_, ?_⟩
  · intro hp
    rw [normalize_url, if_pos hp]
  · intro hs
    have hp : "http".data.isPrefixOf url.data = true := by
      rw [hasSchemePrefixSpec, Bool.or_eq_true] at hs
      rcases hs with hs | hs
      · exact List.isPrefixOf_iff_prefix.mpr
          (List.IsPrefix.trans (by decide) (List.isPrefixOf_iff_prefix.mp hs))
      · exact List.isPrefixOf_iff_prefix.mpr
          (List.IsPrefix.trans (by decide) (List.isPrefixOf_iff_prefix.mp hs))
    rw [normalize_url, if_pos hp]
  · intro hn
    rw [normalize_url, if_neg (by simp [hn])]
  · by_cases hp : "http".data.isPrefixOf url.data = true
    · have h1 : normalize_url url = url := by rw [normalize_url, if_pos hp]
      rw [h1]; exact h1
    · have h1 : normalize_url url = "https://" ++ url := by rw [normalize_url, if_neg hp]
      rw [h1]
      have hpre : "http".data.isPrefixOf ("https://" ++ url).data = true := by
        refine List.isPrefixOf_iff_prefix.mpr ?_
        rw [String.data_append]
        exact List.IsPrefix.trans (by decide) ⟨url.data, rfl⟩
      rw [normalize_url, if_pos hpre]

/-- Witness for C2: the amended theorem applied at the schemeless
`http`-prefixed input `httpbin.org` (no-op — the case the correction is
about), at a url with a scheme (no-op), and at the spec's `example.com`
example (prefixed once). -/
theorem C2_witness :
    normalize_url "httpbin.org" = "httpbin.org" ∧
    normalize_url "https://x.com" = "https://x.com" ∧
    normalize_url "example.com" = "https://example.com" := by
  refine ⟨?_, ?_, ?_⟩
  · exact ( C2_amended_theorem "httpbin.org").1 (by decide)
  · exact ( C2_amended_theorem "https://x.com").2.1 (by decide)
  · exact (( C2_amended_theorem "example.com").2.2.1 (by decide)).trans (by decide)

/-! ### General list and path lemmas -/

theorem append_ne {α : Type} (p : List α) {a b : List α} (h : a ≠ b) :
    p ++ a ≠ p ++ b :=
  fun he => h (List.append_cancel_left he)

theorem isPre_append_cancel {α : Type} {h a b : List α} :
    (h ++ a <+: h ++ b) ↔ (a <+: b) := by
  constructor
  · rintro ⟨t, ht⟩
    rw [List.append_assoc] at ht
    exact ⟨t, List.append_cancel_left ht⟩
  · rintro ⟨t, ht⟩
    exact ⟨t, by rw [List.append_assoc, ht]⟩

theorem lookupA_some_mem {β : Type} {p : Path} {l : List (Path × β)} {v : β}
    (h : lookupA p l = some v) : (p, v) ∈ l := by
  induction l with
  | nil => simp [lookupA] at h
  | cons e t ih =>
    obtain ⟨q, w⟩ := e
    rw [lookupA] at h
    by_cases hq : q = p
    · rw [if_pos hq] at h
      subst hq
      injection h with h
      subst h
      exact List.mem_cons_self _ _
    · rw [if_neg hq] at h
      exact List.mem_cons_of_mem _ (ih h)

/-- Removing unrelated entries does not change a lookup: if every entry
whose key is `p` survives the filter, `lookupA p` is unchanged. -/
theorem lookupA_filter_stable {β : Type} (p : Path) (g : Path × β → Bool)
    (l : List (Path × β)) (hg : ∀ v : β, g (p, v) = true) :
    lookupA p (l.filter g) = lookupA p l := by
  induction l with
  | nil => rfl
  | cons e t ih =>
    obtain ⟨q, w⟩ := e
    by_cases hq : q = p
    · subst hq
      rw [List.filter_cons_of_pos (hg w), lookupA, if_pos rfl, lookupA, if_pos rfl]
    · rw [lookupA, if_neg hq]
      cases hgw : g (q, w) with
      | true => rw [List.filter_cons_of_pos hgw, lookupA, if_neg hq, ih]
      | false => rw [List.filter_cons_of_neg (by simp [hgw]), ih]

/-- If every entry whose key is `p` is removed by the filter, `lookupA p`
finds nothing afterwards. -/
theorem lookupA_filter_removed {β : Type} (p : Path) (g : Path × β → Bool)
    (l : List (Path × β)) (hg : ∀ v : β, g (p, v) = false) :
    lookupA p (l.filter g) = none := by
  induction l with
  | nil => rfl
  | cons e t ih =>
    obtain ⟨q, w⟩ := e
    by_cases hq : q = p
    · subst hq
      rw [List.filter_cons_of_neg (by simp [hg w]), ih]
    · cases hgw : g (q, w) with
      | true => rw [List.filter_cons_of_pos hgw, lookupA, if_neg hq, ih]
      | false => rw [List.filter_cons_of_neg (by simp [hgw]), ih]

theorem normFold_no_dots (l : List String) (acc : List String) (h : ".." ∉ l) :
    l.foldl (fun acc c => if c = ".." then acc.dropLast else acc ++ [c]) acc = acc ++ l := by
  induction l generalizing acc with
  | nil => simp
  | cons c t ih =>
    rw [List.foldl_cons]
    have hc : c ≠ ".." := fun hc => h (by simp [hc])
    rw [if_neg hc, ih _ (fun hm => h (List.mem_cons_of_mem _ hm))]
    simp

theorem commonLen_append (h a b : Path) :
    commonLen (h ++ a) (h ++ b) = h.length + commonLen a b := by
  induction h with
  | nil => simp
  | cons c t ih => simp [commonLen, ih]; omega

/-- The menu symlink, created with the relative path computed by
`os.path.relpath`, resolves back to the descriptor target. -/
theorem resolveLink_relpath (home : Path) (s : SsbFirefox)
    (hhome : ".." ∉ home) (hname : s.name ≠ "..") :
    normalizePath ((s.desktop_file_symlink home).dropLast ++
      relpath (s.desktop_file home) ((s.desktop_file_symlink home).dropLast)) =
      s.desktop_file home := by
  have hdrop : (s.desktop_file_symlink home).dropLast =
      home ++ [".local", "share", "applications"] := by
    rw [SsbFirefox.desktop_file_symlink,
      show ([".local", "share", "applications", s.name ++ ".desktop"] : Path) =
        [".local", "share", "applications"] ++ [s.name ++ ".desktop"] from rfl,
      ← List.append_assoc, List.dropLast_concat]
  have htarget : s.desktop_file home =
      (home ++ [".local", "share"]) ++ ["ssb", s.name, "application-menu-item.desktop"] := by
    simp [SsbFirefox.desktop_file, SsbFirefox.config_path]
  have hcommon : commonLen (s.desktop_file home) (home ++ [".local", "share", "applications"]) =
      home.length + 2 := by
    rw [htarget, List.append_assoc,
      show ([".local", "share"] ++ ["ssb", s.name, "application-menu-item.desktop"] : Path) =
        [".local", "share", "ssb", s.name, "application-menu-item.desktop"] from rfl,
      commonLen_append]
    simp [commonLen]
  have hrel : relpath (s.desktop_file home) ((s.desktop_file_symlink home).dropLast) =
      [".."] ++ ["ssb", s.name, "application-menu-item.desktop"] := by
    rw [relpath, hdrop, hcommon]
    have hlen : (home ++ [".local", "share", "applications"]).length = home.length + 3 := by
      simp
    rw [hlen, show home.length + 3 - (home.length + 2) = 1 from by omega]
    rw [htarget, show home.length + 2 = (home ++ [".local", "share"]).length from by simp,
      List.drop_left]
    rfl
  rw [hrel, hdrop, normalizePath]
  have happdir : ".." ∉ home ++ [".local", "share", "applications"] := by
    intro hm
    rcases List.mem_append.mp hm with hm | hm
    · exact hhome hm
    · simp at hm
  rw [List.foldl_append, normFold_no_dots _ _ happdir, List.nil_append,
    List.singleton_append, List.foldl_cons, if_pos rfl,
    show (home ++ [".local", "share", "applications"]) =
      (home ++ [".local", "share"]) ++ ["applications"] from by simp,
    List.dropLast_concat]
  have hrest : ".." ∉ (["ssb", s.name, "application-menu-item.desktop"] : Path) := by
    intro hm
    rcases List.mem_cons.mp hm with hm | hm
    · exact absurd hm.symm (by decide)
    rcases List.mem_cons.mp hm with hm | hm
    · exact hname hm.symm
    · simp at hm
  rw [normFold_no_dots _ _ hrest, htarget]

/-! ### Claim C4 -/

/-- Claim C4: when the desktop-entry symlink path is already occupied —
by a symlink resolving to something other than the descriptor target, or
by a non-symlink entity — register raises `FileExistsError` naming that
path, performs no action, and leaves the filesystem unchanged. -/
theorem C4_theorem (home : Path) (url : String) (nm : Option String) (net : Net)
    (readGeckoId : ManifestReader) (browser : List String → FS → Nat × FS)
    (updateDbExit : Nat) (fs : FS)
    (hconf :
      (fs.is_symlink ((SsbFirefox.init url nm).desktop_file_symlink home) = true ∧
        fs.resolveLink ((SsbFirefox.init url nm).desktop_file_symlink home) ≠
          (SsbFirefox.init url nm).desktop_file home) ∨
      (fs.is_symlink ((SsbFirefox.init url nm).desktop_file_symlink home) = false ∧
        fs.pathExists ((SsbFirefox.init url nm).desktop_file_symlink home) = true)) :
    mainOp home .applicationMenu url nm net readGeckoId browser updateDbExit fs =
      ⟨fs, [], some (.fileExists ((SsbFirefox.init url nm).desktop_file_symlink home))⟩ := by
  rcases hconf with ⟨hlink, hres⟩ | ⟨hlink, hex⟩
  · rw [mainOp, SsbFirefox.generate_desktop_file]
    rw [if_pos hlink, if_pos hres]
    rfl
  · rw [mainOp, SsbFirefox.generate_desktop_file]
    rw [if_neg (by simp [hlink]), if_pos hex]
    rfl

/-- Witness for C4: a filesystem whose applications-menu slot for
`x.com.desktop` is a symlink pointing elsewhere; register fails with
`FileExistsError` on that path and changes nothing. -/
theorem C4_witness :
    mainOp ["home", "user"] .applicationMenu "https://x.com" none
      (fun _ => none) (fun _ => none) (fun _ fs => (0, fs)) 0
      ⟨[], [([ "home", "user", ".local", "share", "applications", "x.com.desktop"],
            ["elsewhere"])], []⟩ =
      ⟨⟨[], [([ "home", "user", ".local", "share", "applications", "x.com.desktop"],
            ["elsewhere"])], []⟩, [],
        some (.fileExists
          ["home", "user", ".local", "share", "applications", "x.com.desktop"])⟩ := by
  exact C4_theorem ["home", "user"] "https://x.com" none
    (fun _ => none) (fun _ => none) (fun _ fs => (0, fs)) 0 _
    (Or.inl ⟨by decide, by decide⟩)

/-! ### Claim C9 -/

theorem config_isPre_desktop_file (home : Path) (s : SsbFirefox) :
    (s.config_path home).isPrefixOf (s.desktop_file home) = true :=
  List.isPrefixOf_iff_prefix.mpr ⟨["application-menu-item.desktop"], rfl⟩

theorem config_not_pre_symlink (home : Path) (s : SsbFirefox) :
    (s.config_path home).isPrefixOf (s.desktop_file_symlink home) = false := by
  rw [Bool.eq_false_iff]
  intro h
  have h' := List.isPrefixOf_iff_prefix.mp h
  rw [SsbFirefox.config_path, SsbFirefox.desktop_file_symlink] at h'
  have h'' := isPre_append_cancel.mp h'
  rcases List.cons_prefix_cons.mp h'' with ⟨-, h''⟩
  rcases List.cons_prefix_cons.mp h'' with ⟨-, h''⟩
  rcases List.cons_prefix_cons.mp h'' with ⟨h3, -⟩
  exact absurd h3 (by decide)

theorem not_tree_lookup_none (fs : FS) (c p : Path) (ht : fs.treeExists c = false)
    (hp : c <+: p) : fs.lookupFile p = none := by
  cases h : fs.lookupFile p with
  | none => rfl
  | some v =>
    exfalso
    have hmem : (p, v) ∈ fs.files := lookupA_some_mem h
    rw [FS.treeExists] at ht
    have hany : fs.files.any (fun e => c.isPrefixOf e.1) = true :=
      List.any_eq_true.mpr ⟨(p, v), hmem, List.isPrefixOf_iff_prefix.mpr hp⟩
    simp [hany] at ht

theorem not_tree_dirs_contains (fs : FS) (c p : Path) (ht : fs.treeExists c = false)
    (hp : c <+: p) : fs.dirs.contains p = false := by
  cases h : fs.dirs.contains p with
  | false => rfl
  | true =>
    exfalso
    have hmem : p ∈ fs.dirs := by simpa using h
    rw [FS.treeExists] at ht
    have hany : fs.dirs.any (fun d => c.isPrefixOf d) = true :=
      List.any_eq_true.mpr ⟨p, hmem, List.isPrefixOf_iff_prefix.mpr hp⟩
    simp [hany] at ht

theorem contains_filter_removed (l : List Path) (g : Path → Bool) (p : Path)
    (hg : g p = false) : (l.filter g).contains p = false := by
  cases hc : (l.filter g).contains p with
  | false => rfl
  | true =>
    exfalso
    have hm : p ∈ l.filter g := by simpa using hc
    exact absurd (List.mem_filter.mp hm).2 (by simp [hg])

/-- `clean` reduces to a fixed outcome on each side of the
`config`-subtree-presence split. -/
theorem clean_eval (home : Path) (s : SsbFirefox) (fs : FS) :
    s.clean home fs =
      if fs.treeExists (s.config_path home) = true then
        ⟨fs.removeTree (s.config_path home),
          [.rmtree (s.config_path home), .removeFile (s.desktop_file home)], none⟩
      else
        ⟨fs, [.rmtree (s.config_path home), .removeFile (s.desktop_file home)], none⟩ := by
  by_cases ht : fs.treeExists (s.config_path home) = true
  · rw [if_pos ht, SsbFirefox.clean, rmtreeOp, if_pos ht]
    have h1 : suppressNotFound ⟨fs.removeTree (s.config_path home),
        [.rmtree (s.config_path home)], none⟩ =
        ⟨fs.removeTree (s.config_path home), [.rmtree (s.config_path home)], none⟩ := rfl
    rw [h1]
    have hlk : (fs.removeTree (s.config_path home)).lookupFile (s.desktop_file home) = none := by
      rw [FS.removeTree, FS.lookupFile]
      exact lookupA_filter_removed _ _ _
        (fun v => by simp [config_isPre_desktop_file home s])
    have hdir : (fs.removeTree (s.config_path home)).dirs.contains (s.desktop_file home)
        = false :=
      contains_filter_removed _ _ _ (by simp [config_isPre_desktop_file home s])
    rw [Result.andThen]
    rw [removeFileOp, hlk]
    rw [if_neg (by simp), if_neg (by simpa using hdir)]
    rfl
  · rw [if_neg ht, SsbFirefox.clean, rmtreeOp, if_neg ht]
    have h1 : suppressNotFound ⟨fs, [.rmtree (s.config_path home)],
        some (.fileNotFound (s.config_path home))⟩ =
        ⟨fs, [.rmtree (s.config_path home)], none⟩ := rfl
    rw [h1, Result.andThen]
    have htf : fs.treeExists (s.config_path home) = false := by
      cases h : fs.treeExists (s.config_path home) with
      | false => rfl
      | true => exact absurd h ht
    have hpre : s.config_path home <+: s.desktop_file home :=
      ⟨["application-menu-item.desktop"], rfl⟩
    have hlk := not_tree_lookup_none fs _ _ htf hpre
    have hdir := not_tree_dirs_contains fs _ _ htf hpre
    rw [removeFileOp, hlk, if_neg (by simp), if_neg (by simpa using hdir)]
    rfl

/-- Claim C9: `clean` never raises (in particular not for an identity that
was never registered, where it is a no-op on the filesystem); it removes
every regular file under the config root — the descriptor target
included — treating absence as success, and it leaves the applications-menu
symlink in place. -/
theorem C9_theorem (home : Path) (url : String) (nm : Option String) (fs : FS) :
    ((SsbFirefox.init url nm).clean home fs).err = none ∧
    ((SsbFirefox.init url nm).clean home fs).fs.lookupLink
        ((SsbFirefox.init url nm).desktop_file_symlink home) =
      fs.lookupLink ((SsbFirefox.init url nm).desktop_file_symlink home) ∧
    (∀ p, ((SsbFirefox.init url nm).config_path home) <+: p →
      ((SsbFirefox.init url nm).clean home fs).fs.lookupFile p = none) ∧
    (fs.treeExists ((SsbFirefox.init url nm).config_path home) = false →
      ((SsbFirefox.init url nm).clean home fs).fs = fs) := by
  rw [clean_eval]
  by_cases ht : fs.treeExists ((SsbFirefox.init url nm).config_path home) = true
  · rw [if_pos ht]
    refine ⟨rfl, ?_, ?_, ?_⟩
    · rw [FS.removeTree, FS.lookupLink, FS.lookupLink]
      exact lookupA_filter_stable _ _ _
        (fun v => by simp [config_not_pre_symlink home (SsbFirefox.init url nm)])
    · intro p hp
      rw [FS.removeTree, FS.lookupFile]
      exact lookupA_filter_removed _ _ _
        (fun v => by simp [List.isPrefixOf_iff_prefix.mpr hp])
    · intro hf
      exact absurd ht (by simp [hf])
  · rw [if_neg ht]
    have htf : fs.treeExists ((SsbFirefox.init url nm).config_path home) = false := by
      cases h : fs.treeExists ((SsbFirefox.init url nm).config_path home) with
      | false => rfl
      | true => exact absurd h ht
    refine ⟨rfl, rfl, ?_, fun _ => rfl⟩
    intro p hp
    exact not_tree_lookup_none fs _ _ htf hp

/-- Witness for C9: cleaning the identity of `https://x.com` on an empty
filesystem raises nothing and changes nothing. -/
theorem C9_witness :
    ((SsbFirefox.init "https://x.com" none).clean ["home", "user"] FS.empty).err = none ∧
    ((SsbFirefox.init "https://x.com" none).clean ["home", "user"] FS.empty).fs = FS.empty := by
  refine ⟨( C9_theorem ["home", "user"] "https://x.com" none FS.empty).1, ?_⟩
  exact ( C9_theorem ["home", "user"] "https://x.com" none FS.empty).2.2.2 (by decide)

/-! ### Claims C8 and C10 -/

theorem rmtreeOp_events (p : Path) (fs : FS) : (rmtreeOp p fs).events = [.rmtree p] := by
  rw [rmtreeOp]; split <;> rfl

theorem dropLast_append_two (p : Path) (a b : String) : (p ++ [a, b]).dropLast = p ++ [a] := by
  rw [show ([a, b] : Path) = [a] ++ [b] from rfl, ← List.append_assoc, List.dropLast_concat]

theorem andThen_ok (fs1 : FS) (evs : List Event) (f : FS → Result) :
    Result.andThen ⟨fs1, evs, none⟩ f =
      ⟨(f fs1).fs, evs ++ (f fs1).events, (f fs1).err⟩ := rfl

theorem andThen_eval (fs1 : FS) (evs : List Event) (f : FS → Result)
    (fs2 : FS) (evs2 : List Event) (er : Option Err) (h : f fs1 = ⟨fs2, evs2, er⟩) :
    Result.andThen ⟨fs1, evs, none⟩ f = ⟨fs2, evs ++ evs2, er⟩ := by
  rw [andThen_ok, h]

theorem mem_andThen_events {r : Result} {f : FS → Result} {e : Event}
    (h : e ∈ (r.andThen f).events) : e ∈ r.events ∨ e ∈ (f r.fs).events := by
  cases herr : r.err with
  | some err =>
    simp only [Result.andThen, herr] at h
    exact Or.inl h
  | none =>
    simp only [Result.andThen, herr] at h
    exact List.mem_append.mp h

theorem make_user_css_events_ok (home : Path) (s : SsbFirefox) (fs : FS) :
    ∀ e ∈ (s.make_user_css home fs).events, runEventOk home s e := by
  intro e he
  rw [SsbFirefox.make_user_css] at he
  split at he
  · simp at he
  · simp at he
    rcases he with he | he <;> subst he
    · exact ⟨["chrome"], rfl⟩
    · exact ⟨["chrome", "userChrome.css"], rfl⟩

theorem make_user_js_events_ok (home : Path) (s : SsbFirefox) (fs : FS) :
    ∀ e ∈ (s.make_user_js home fs).events, runEventOk home s e := by
  intro e he
  rw [SsbFirefox.make_user_js] at he
  split at he
  · simp at he
  · simp at he
    rcases he with he | he <;> subst he
    · exact ⟨[], List.append_nil _⟩
    · exact ⟨["user.js"], rfl⟩

theorem install_ublock_events_ok (home : Path) (s : SsbFirefox) (net : Net)
    (readGeckoId : ManifestReader) (fs : FS) :
    ∀ e ∈ (s.install_ublock_origin home net readGeckoId fs).events, runEventOk home s e := by
  intro e he
  rw [SsbFirefox.install_ublock_origin] at he
  split at he
  · simp at he
  · split at he
    · simp at he
      subst he; trivial
    · split at he
      · simp at he
        subst he; trivial
      · split at he
        · simp at he
          subst he; trivial
        · split at he
          · simp at he
            rcases he with he | he <;> subst he <;> trivial
          · split at he
            · simp at he
              rcases he with he | he <;> subst he <;> trivial
            · split at he
              · simp at he
                rcases he with he | he <;> subst he <;> trivial
              · simp at he
                rcases he with he | he | he | he | he <;> subst he
                · trivial
                · trivial
                · exact ⟨["extensions"], rfl⟩
                · exact ⟨["extensions", _ ++ ".xpi"], rfl⟩
                · exact ⟨["extensions", "ublock_origin_installed"], rfl⟩

theorem generate_profile_events_ok (home : Path) (s : SsbFirefox) (net : Net)
    (readGeckoId : ManifestReader) (fs : FS) :
    ∀ e ∈ (s.generate_profile home net readGeckoId fs).events, runEventOk home s e := by
  intro e he
  rw [SsbFirefox.generate_profile] at he
  rcases mem_andThen_events he with he | he
  · rcases mem_andThen_events he with he | he
    · exact make_user_css_events_ok home s fs e he
    · exact make_user_js_events_ok home s _ e he
  · exact install_ublock_events_ok home s net readGeckoId _ e he

/-- Claim C8: in run mode, whenever profile materialization succeeds, the
action trace is exactly the profile actions followed by the browser launch
with the command line
`firefox -profile <profileRoot> -no-remote -new-instance <url> --class <windowClass>`
and then — for every possible browser behaviour, a non-zero exit status
included — the removal of `<profileRoot>/cache2`. -/
theorem C8_theorem (home : Path) (url : String) (nm : Option String) (net : Net)
    (readGeckoId : ManifestReader) (browser : List String → FS → Nat × FS) (fs : FS)
    (hprof : ((SsbFirefox.init url nm).generate_profile home net readGeckoId fs).err = none) :
    ((SsbFirefox.init url nm).run home net readGeckoId browser fs).events =
      ((SsbFirefox.init url nm).generate_profile home net readGeckoId fs).events ++
        [.launch ["firefox", "-profile",
            pathStr ((SsbFirefox.init url nm).profile_path home), "-no-remote",
            "-new-instance", url, "--class", "SSB_" ++ (SsbFirefox.init url nm).name],
         .rmtree ((SsbFirefox.init url nm).profile_path home ++ ["cache2"])] := by
  rw [SsbFirefox.run, Result.andThen]
  rw [hprof]
  simp only [rmtreeOp_events]
  rfl

/-- Witness for C8: a profile already fully materialized, a browser that
exits with status 1 — the trace is still the launch followed by the
`cache2` removal. -/
theorem C8_witness :
    ((SsbFirefox.init "https://s.com" (some "site")).run ["h"] (fun _ => none)
        (fun _ => none) (fun _ fs => (1, fs))
        ⟨[(["h", ".local", "share", "ssb", "site", "profile", "chrome", "userChrome.css"], ""),
          (["h", ".local", "share", "ssb", "site", "profile", "user.js"], ""),
          (["h", ".local", "share", "ssb", "site", "profile", "extensions",
            "ublock_origin_installed"], "")], [], []⟩).events =
      [.launch ["firefox", "-profile", "/h/.local/share/ssb/site/profile", "-no-remote",
          "-new-instance", "https://s.com", "--class", "SSB_site"],
       .rmtree ["h", ".local", "share", "ssb", "site", "profile", "cache2"]] := by
  exact ( C8_theorem ["h"] "https://s.com" (some "site") (fun _ => none) (fun _ => none)
    (fun _ fs => (1, fs)) _ (by decide)).trans (by decide)

/-- Claim C10: every action run mode performs is a fetch, the browser
launch, a write or directory creation under the profile root, or the
removal of `<profileRoot>/cache2`; and the favicon, descriptor and menu
symlink paths do not lie under the profile root, so none of them is ever
created, modified or removed in run mode. -/
theorem C10_theorem (home : Path) (url : String) (nm : Option String) (net : Net)
    (readGeckoId : ManifestReader) (browser : List String → FS → Nat × FS) (fs : FS) :
    (∀ e ∈ ((SsbFirefox.init url nm).run home net readGeckoId browser fs).events,
      runEventOk home (SsbFirefox.init url nm) e) ∧
    ¬ ((SsbFirefox.init url nm).profile_path home <+:
        (SsbFirefox.init url nm).favicon_path home) ∧
    ¬ ((SsbFirefox.init url nm).profile_path home <+:
        (SsbFirefox.init url nm).desktop_file home) ∧
    ¬ ((SsbFirefox.init url nm).profile_path home <+:
        (SsbFirefox.init url nm).desktop_file_symlink home) := by
  refine ⟨?_, ?_, ?_, ?_⟩
  · intro e he
    rw [SsbFirefox.run] at he
    rcases mem_andThen_events he with he | he
    · exact generate_profile_events_ok home _ net readGeckoId fs e he
    · simp only [rmtreeOp_events] at he
      simp at he
      rcases he with he | he <;> subst he
      · rfl
      · rfl
  · intro h
    rw [SsbFirefox.profile_path, SsbFirefox.favicon_path] at h
    rcases List.cons_prefix_cons.mp (isPre_append_cancel.mp h) with ⟨h1, -⟩
    exact absurd h1 (by decide)
  · intro h
    rw [SsbFirefox.profile_path, SsbFirefox.desktop_file] at h
    rcases List.cons_prefix_cons.mp (isPre_append_cancel.mp h) with ⟨h1, -⟩
    exact absurd h1 (by decide)
  · intro h
    rw [SsbFirefox.profile_path, SsbFirefox.config_path,
      SsbFirefox.desktop_file_symlink] at h
    rw [List.append_assoc] at h
    have h' := isPre_append_cancel.mp
      (show home ++ ([".local", "share", "ssb", (SsbFirefox.init url nm).name] ++ ["profile"])
          <+: home ++ [".local", "share", "applications",
            (SsbFirefox.init url nm).name ++ ".desktop"] from h)
    rcases List.cons_prefix_cons.mp h' with ⟨-, h'⟩
    rcases List.cons_prefix_cons.mp h' with ⟨-, h'⟩
    rcases List.cons_prefix_cons.mp h' with ⟨h3, -⟩
    exact absurd h3 (by decide)

/-- Witness for C10: instantiating the frame property at the launch action
of a concrete run. -/
theorem C10_witness :
    runEventOk ["h"] (SsbFirefox.init "https://s.com" (some "site"))
      (.launch ["firefox", "-profile", "/h/.local/share/ssb/site/profile", "-no-remote",
        "-new-instance", "https://s.com", "--class", "SSB_site"]) := by
  refine ( C10_theorem ["h"] "https://s.com" (some "site") (fun _ => none) (fun _ => none)
    (fun _ fs => (1, fs))
    ⟨[(["h", ".local", "share", "ssb", "site", "profile", "chrome", "userChrome.css"], ""),
      (["h", ".local", "share", "ssb", "site", "profile", "user.js"], ""),
      (["h", ".local", "share", "ssb", "site", "profile", "extensions",
        "ublock_origin_installed"], "")], [], []⟩).1 _ (by decide)

/-! ### Claim C5 -/

theorem xpi_name_ne (gid : String) : gid ++ ".xpi" ≠ "ublock_origin_installed" := by
  intro h
  have h' : (gid ++ ".xpi").data.reverse = "ublock_origin_installed".data.reverse := by rw [h]
  rw [String.data_append, List.reverse_append,
    show ".xpi".data.reverse = ['i', 'p', 'x', '.'] from rfl] at h'
  have h0 := congrArg List.head? h'
  rw [show (['i', 'p', 'x', '.'] ++ gid.data.reverse).head? = some 'i' from rfl,
    show ("ublock_origin_installed".data.reverse).head? = some 'd' from rfl] at h0
  exact absurd h0 (by decide)

/-- Evaluation of the installer's success path. -/
theorem install_eval_success (home : Path) (s : SsbFirefox) (net : Net)
    (readGeckoId : ManifestReader) (fs : FS) (r1 r2 : HttpResponse) (link gid : String)
    (hsent : fs.pathExists
      (s.profile_path home ++ ["extensions", "ublock_origin_installed"]) = false)
    (h1 : net addon_url = some r1) (h1s : r1.statusOk = true)
    (hf : findXpiLink r1.content = some link)
    (h2 : net link = some r2) (h2s : r2.statusOk = true)
    (hg : readGeckoId r2.content = some gid) :
    s.install_ublock_origin home net readGeckoId fs =
      ⟨((fs.mkdirP (s.profile_path home ++ ["extensions"])).writeFile
          (s.profile_path home ++ ["extensions", gid ++ ".xpi"]) r2.content).writeFile
        (s.profile_path home ++ ["extensions", "ublock_origin_installed"]) "",
        [.httpGet addon_url, .httpGet link,
         .mkdirP (s.profile_path home ++ ["extensions"]),
         .writeFile (s.profile_path home ++ ["extensions", gid ++ ".xpi"]) r2.content,
         .writeFile (s.profile_path home ++ ["extensions", "ublock_origin_installed"]) ""],
        none⟩ := by
  simp only [SsbFirefox.install_ublock_origin, hsent, h1, h1s, hf, h2, h2s, hg,
    Bool.not_true, Bool.false_eq_true, if_false, dropLast_append_two, List.dropLast_concat]
  simp [dropLast_append_two]

/-- Claim C5: (a) if the sentinel exists the installer returns with no
fetch, no write and no error; (b) on the success path with a manifest
declaring Gecko id `gid`, the downloaded bytes are persisted to
`<gid>.xpi` beside the sentinel and the empty sentinel is written last;
(c) crash safety: in every prefix of the installer's action trace, a write
of the sentinel is accompanied by an earlier write of the `.xpi` payload,
so the sentinel never exists without the payload. -/
theorem C5_theorem (home : Path) (url : String) (nm : Option String) (net : Net)
    (readGeckoId : ManifestReader) (fs : FS) :
    (fs.pathExists ((SsbFirefox.init url nm).profile_path home ++
        ["extensions", "ublock_origin_installed"]) = true →
      (SsbFirefox.init url nm).install_ublock_origin home net readGeckoId fs =
        ⟨fs, [], none⟩) ∧
    (∀ r1 r2 : HttpResponse, ∀ link gid : String,
      fs.pathExists ((SsbFirefox.init url nm).profile_path home ++
        ["extensions", "ublock_origin_installed"]) = false →
      net addon_url = some r1 → r1.statusOk = true →
      findXpiLink r1.content = some link →
      net link = some r2 → r2.statusOk = true →
      readGeckoId r2.content = some gid →
      (SsbFirefox.init url nm).install_ublock_origin home net readGeckoId fs =
        ⟨((fs.mkdirP ((SsbFirefox.init url nm).profile_path home ++
              ["extensions"])).writeFile
            ((SsbFirefox.init url nm).profile_path home ++
              ["extensions", gid ++ ".xpi"]) r2.content).writeFile
          ((SsbFirefox.init url nm).profile_path home ++
            ["extensions", "ublock_origin_installed"]) "",
          [.httpGet addon_url, .httpGet link,
           .mkdirP ((SsbFirefox.init url nm).profile_path home ++ ["extensions"]),
           .writeFile ((SsbFirefox.init url nm).profile_path home ++
             ["extensions", gid ++ ".xpi"]) r2.content,
           .writeFile ((SsbFirefox.init url nm).profile_path home ++
             ["extensions", "ublock_origin_installed"]) ""],
          none⟩) ∧
    (∀ pre, pre <+:
        ((SsbFirefox.init url nm).install_ublock_origin home net readGeckoId fs).events →
      (∃ c, Event.writeFile ((SsbFirefox.init url nm).profile_path home ++
        ["extensions", "ublock_origin_installed"]) c ∈ pre) →
      ∃ gid bts, Event.writeFile ((SsbFirefox.init url nm).profile_path home ++
        ["extensions", gid ++ ".xpi"]) bts ∈ pre) := by
  refine ⟨?_, ?_, ?_⟩
  · intro hs
    rw [SsbFirefox.install_ublock_origin, if_pos hs]
  · intro r1 r2 link gid hsent h1 h1s hf h2 h2s hg
    exact install_eval_success home _ net readGeckoId fs r1 r2 link gid hsent h1 h1s hf h2 h2s hg
  · intro pre hpre hsw
    obtain ⟨c, hc⟩ := hsw
    cases hA : fs.pathExists ((SsbFirefox.init url nm).profile_path home ++
        ["extensions", "ublock_origin_installed"]) with
    | true =>
      rw [(by rw [SsbFirefox.install_ublock_origin, if_pos hA] :
        (SsbFirefox.init url nm).install_ublock_origin home net readGeckoId fs =
          ⟨fs, [], none⟩)] at hpre
      have := hpre.subset hc
      simp at this
    | false =>
      cases h1 : net addon_url with
      | none =>
        simp only [SsbFirefox.install_ublock_origin, hA, h1] at hpre
        simp at hpre
        have := hpre.subset hc
        simp at this
      | some r1 =>
        cases h1s : r1.statusOk with
        | false =>
          simp only [SsbFirefox.install_ublock_origin, hA, h1, h1s] at hpre
          simp at hpre
          have := hpre.subset hc
          simp at this
        | true =>
          cases hf : findXpiLink r1.content with
          | none =>
            simp only [SsbFirefox.install_ublock_origin, hA, h1, h1s, hf] at hpre
            simp at hpre
            have := hpre.subset hc
            simp at this
          | some link =>
            cases h2 : net link with
            | none =>
              simp only [SsbFirefox.install_ublock_origin, hA, h1, h1s, hf, h2] at hpre
              simp at hpre
              have := hpre.subset hc
              simp at this
            | some r2 =>
              cases h2s : r2.statusOk with
              | false =>
                simp only [SsbFirefox.install_ublock_origin, hA, h1, h1s, hf, h2, h2s] at hpre
                simp at hpre
                have := hpre.subset hc
                simp at this
              | true =>
                cases hg : readGeckoId r2.content with
                | none =>
                  simp only [SsbFirefox.install_ublock_origin, hA, h1, h1s, hf, h2, h2s,
                    hg] at hpre
                  simp at hpre
                  have := hpre.subset hc
                  simp at this
                | some gid =>
                  rw [install_eval_success home _ net readGeckoId fs r1 r2 link gid hA h1
                    h1s hf h2 h2s hg] at hpre
                  have hmem := (List.mem_inits _ _).mpr hpre
                  simp only [List.inits] at hmem
                  simp at hmem
                  rcases hmem with h | h | h | h | h | h <;> subst h
                  · simp at hc
                  · simp at hc
                  · simp at hc
                  · simp at hc
                  · simp at hc
                    exact absurd hc.1.symm (by
                      intro he
                      exact xpi_name_ne gid he)
                  · exact ⟨gid, r2.content, by simp⟩

/-- Witness for C5: a concrete catalog page advertising
`https://dl/ublock1.xpi`, whose manifest declares
`uBlock0@raymondhill.net`; the payload lands in
`uBlock0@raymondhill.net.xpi` and the sentinel write is the last
action. -/
theorem C5_witness :
    ((SsbFirefox.init "https://s.com" (some "site")).install_ublock_origin ["h"]
        (fun u =>
          if u = addon_url then
            some ⟨true, "<a href=\"https://dl/ublock1.xpi\">get it</a>"⟩
          else if u = "https://dl/ublock1.xpi" then some ⟨true, "BYTES"⟩
          else none)
        (fun b => if b = "BYTES" then some "uBlock0@raymondhill.net" else none)
        FS.empty).events =
      [.httpGet addon_url, .httpGet "https://dl/ublock1.xpi",
       .mkdirP ["h", ".local", "share", "ssb", "site", "profile", "extensions"],
       .writeFile ["h", ".local", "share", "ssb", "site", "profile", "extensions",
         "uBlock0@raymondhill.net.xpi"] "BYTES",
       .writeFile ["h", ".local", "share", "ssb", "site", "profile", "extensions",
         "ublock_origin_installed"] ""] := by
  have h := ( C5_theorem ["h"] "https://s.com" (some "site")
    (fun u =>
      if u = addon_url then
        some ⟨true, "<a href=\"https://dl/ublock1.xpi\">get it</a>"⟩
      else if u = "https://dl/ublock1.xpi" then some ⟨true, "BYTES"⟩
      else none)
    (fun b => if b = "BYTES" then some "uBlock0@raymondhill.net" else none)
    FS.empty).2.1
    ⟨true, "<a href=\"https://dl/ublock1.xpi\">get it</a>"⟩ ⟨true, "BYTES"⟩
    "https://dl/ublock1.xpi" "uBlock0@raymondhill.net"
    (by decide) (by decide) (by decide) (by decide) (by decide) (by decide) (by decide)
  exact (congrArg Result.events h).trans (by decide)

/-! ### Claim C6 -/

theorem cons_ne_of_head {a b : String} (as bs : List String) (h : a ≠ b) :
    (a :: as) ≠ (b :: bs) := by
  intro he
  injection he with h1 _
  exact h h1

theorem not_pre_head {a b : String} (as bs : List String) (h : a ≠ b) :
    ¬ ((a :: as) <+: (b :: bs)) :=
  fun hp => h (List.cons_prefix_cons.mp hp).1

theorem not_pre_nil (a : String) (as : List String) : ¬ ((a :: as) <+: ([] : Path)) := by
  rintro ⟨t, ht⟩
  simp at ht

theorem contains_eq_false (l : List Path) (p : Path) (h : p ∉ l) :
    l.contains p = false := by
  cases hc : l.contains p with
  | false => rfl
  | true => exact absurd (by simpa using hc) h

theorem lookupFile_writeFile (fs : FS) (p q : Path) (c : String) :
    (fs.writeFile q c).lookupFile p = if q = p then some c else fs.lookupFile p := rfl

theorem lookupFile_mkdirP (fs : FS) (p q : Path) :
    (fs.mkdirP q).lookupFile p = fs.lookupFile p := rfl

/-- The installer never changes a regular file other than the sentinel and
the `.xpi` payload. -/
theorem install_preserves_lookup (home : Path) (s : SsbFirefox) (net : Net)
    (readGeckoId : ManifestReader) (fs : FS) (p : Path)
    (hxpi : ∀ gid : String, p ≠ s.profile_path home ++ ["extensions", gid ++ ".xpi"])
    (hsent : p ≠ s.profile_path home ++ ["extensions", "ublock_origin_installed"]) :
    ((s.install_ublock_origin home net readGeckoId fs).fs).lookupFile p =
      fs.lookupFile p := by
  rw [SsbFirefox.install_ublock_origin]
  split
  · rfl
  · split
    · rfl
    · split
      · rfl
      · split
        · rfl
        · split
          · rfl
          · split
            · rfl
            · split
              · rfl
              · rename_i gid _
                show lookupA p (_ :: _ :: fs.files) = lookupA p fs.files
                rw [lookupA, if_neg (fun h => hsent h.symm), lookupA,
                  if_neg (fun h => hxpi gid (by rw [← h, dropLast_append_two]; simp))]

/-- Every file write the installer performs targets the sentinel or a
`.xpi` payload beside it. -/
theorem install_events_writes (home : Path) (s : SsbFirefox) (net : Net)
    (readGeckoId : ManifestReader) (fs : FS) :
    ∀ p c, Event.writeFile p c ∈ (s.install_ublock_origin home net readGeckoId fs).events →
      p = s.profile_path home ++ ["extensions", "ublock_origin_installed"] ∨
      ∃ gid : String, p = s.profile_path home ++ ["extensions", gid ++ ".xpi"] := by
  intro p c he
  rw [SsbFirefox.install_ublock_origin] at he
  split at he
  · simp at he
  · split at he
    · simp at he
    · split at he
      · simp at he
      · split at he
        · simp at he
        · split at he
          · simp at he
          · split at he
            · simp at he
            · split at he
              · simp at he
              · rename_i gid _
                simp at he
                rcases he with ⟨hp, -⟩ | ⟨hp, -⟩
                · exact Or.inr ⟨gid, hp⟩
                · exact Or.inl hp

/-- Evaluation of `make_user_css` and `make_user_js` on a filesystem where
the target file is absent, and their skip behaviour when it is present. -/
theorem make_user_css_skip (home : Path) (s : SsbFirefox) (fs : FS)
    (h : fs.pathExists (s.profile_path home ++ ["chrome", "userChrome.css"]) = true) :
    s.make_user_css home fs = ⟨fs, [], none⟩ := by
  rw [SsbFirefox.make_user_css, if_pos h]

theorem make_user_js_skip (home : Path) (s : SsbFirefox) (fs : FS)
    (h : fs.pathExists (s.profile_path home ++ ["user.js"]) = true) :
    s.make_user_js home fs = ⟨fs, [], none⟩ := by
  rw [SsbFirefox.make_user_js, if_pos h]

theorem make_user_css_write (home : Path) (s : SsbFirefox) (fs : FS)
    (h : fs.pathExists (s.profile_path home ++ ["chrome", "userChrome.css"]) = false) :
    s.make_user_css home fs =
      ⟨(fs.mkdirP (s.profile_path home ++ ["chrome"])).writeFile
          (s.profile_path home ++ ["chrome", "userChrome.css"]) user_chrome_contents,
        [.mkdirP (s.profile_path home ++ ["chrome"]),
         .writeFile (s.profile_path home ++ ["chrome", "userChrome.css"])
           user_chrome_contents], none⟩ := by
  rw [SsbFirefox.make_user_css, if_neg (by simp [h]), dropLast_append_two]

theorem make_user_js_write (home : Path) (s : SsbFirefox) (fs : FS)
    (h : fs.pathExists (s.profile_path home ++ ["user.js"]) = false) :
    s.make_user_js home fs =
      ⟨(fs.mkdirP (s.profile_path home)).writeFile
          (s.profile_path home ++ ["user.js"]) user_js_contents,
        [.mkdirP (s.profile_path home),
         .writeFile (s.profile_path home ++ ["user.js"]) user_js_contents], none⟩ := by
  rw [SsbFirefox.make_user_js, if_neg (by simp [h]), List.dropLast_concat]

theorem userChrome_ne_userJs (home : Path) (s : SsbFirefox) :
    s.profile_path home ++ ["chrome", "userChrome.css"] ≠
      s.profile_path home ++ ["user.js"] :=
  append_ne _ (cons_ne_of_head _ _ (by decide))

/-- After one `generate_profile` run from the empty filesystem, the style
and preference files hold the template contents, whatever the network
did. -/
theorem profile_run_one (home : Path) (s : SsbFirefox) (net : Net)
    (readGeckoId : ManifestReader) :
    (s.generate_profile home net readGeckoId FS.empty).fs.lookupFile
        (s.profile_path home ++ ["chrome", "userChrome.css"]) =
      some user_chrome_contents ∧
    (s.generate_profile home net readGeckoId FS.empty).fs.lookupFile
        (s.profile_path home ++ ["user.js"]) = some user_js_contents := by
  have hcss := make_user_css_write home s FS.empty (by rfl)
  have hjs_absent : ((FS.empty.mkdirP (s.profile_path home ++ ["chrome"])).writeFile
      (s.profile_path home ++ ["chrome", "userChrome.css"]) user_chrome_contents).pathExists
      (s.profile_path home ++ ["user.js"]) = false := by
    rw [FS.pathExists, lookupFile_writeFile, if_neg (userChrome_ne_userJs home s)]
    rw [show (FS.empty.mkdirP (s.profile_path home ++ ["chrome"])).lookupFile
      (s.profile_path home ++ ["user.js"]) = none from rfl]
    rw [show (((FS.empty.mkdirP (s.profile_path home ++ ["chrome"])).writeFile
        (s.profile_path home ++ ["chrome", "userChrome.css"])
          user_chrome_contents).dirs) =
      (s.profile_path home ++ ["chrome"]).inits ++ [] from rfl]
    rw [contains_eq_false _ _ (by
      intro hm
      rcases List.mem_append.mp hm with hm | hm
      · have h1 := (List.mem_inits _ _).mp hm
        have h2 := isPre_append_cancel.mp h1
        exact not_pre_head _ _ (by decide) h2
      · simp at hm)]
    rfl
  have hjs := make_user_js_write home s _ hjs_absent
  have hgen : s.generate_profile home net readGeckoId FS.empty =
      ⟨((s.install_ublock_origin home net readGeckoId
          ((((FS.empty.mkdirP (s.profile_path home ++ ["chrome"])).writeFile
            (s.profile_path home ++ ["chrome", "userChrome.css"])
              user_chrome_contents).mkdirP (s.profile_path home)).writeFile
            (s.profile_path home ++ ["user.js"]) user_js_contents)).fs),
        ([.mkdirP (s.profile_path home ++ ["chrome"]),
          .writeFile (s.profile_path home ++ ["chrome", "userChrome.css"])
            user_chrome_contents] ++
         [.mkdirP (s.profile_path home),
          .writeFile (s.profile_path home ++ ["user.js"]) user_js_contents]) ++
          ((s.install_ublock_origin home net readGeckoId
            ((((FS.empty.mkdirP (s.profile_path home ++ ["chrome"])).writeFile
              (s.profile_path home ++ ["chrome", "userChrome.css"])
                user_chrome_contents).mkdirP (s.profile_path home)).writeFile
              (s.profile_path home ++ ["user.js"]) user_js_contents)).events),
        ((s.install_ublock_origin home net readGeckoId
          ((((FS.empty.mkdirP (s.profile_path home ++ ["chrome"])).writeFile
            (s.profile_path home ++ ["chrome", "userChrome.css"])
              user_chrome_contents).mkdirP (s.profile_path home)).writeFile
            (s.profile_path home ++ ["user.js"]) user_js_contents)).err)⟩ := by
    rw [SsbFirefox.generate_profile, hcss, andThen_eval _ _ _ _ _ _ hjs, andThen_ok]
  rw [hgen]
  constructor
  · rw [show (⟨_, _, _⟩ : Result).fs = _ from rfl]
    rw [install_preserves_lookup home s net readGeckoId _ _
      (fun gid => append_ne _ (cons_ne_of_head _ _ (by decide)))
      (append_ne _ (cons_ne_of_head _ _ (by decide)))]
    rw [lookupFile_writeFile, if_neg (userChrome_ne_userJs home s).symm,
      lookupFile_mkdirP, lookupFile_writeFile, if_pos rfl]
  · rw [show (⟨_, _, _⟩ : Result).fs = _ from rfl]
    rw [install_preserves_lookup home s net readGeckoId _ _
      (fun gid => append_ne _ (cons_ne_of_head _ _ (by decide)))
      (append_ne _ (cons_ne_of_head _ _ (by decide)))]
    rw [lookupFile_writeFile, if_pos rfl]

/-- Claim C6: run twice from an empty layout, the second
`generate_profile` performs no write to the style-override or
preference-override file, and both files' contents after the second run
are identical to their contents after the first. -/
theorem C6_theorem (home : Path) (url : String) (nm : Option String)
    (net net' : Net) (readGeckoId readGeckoId' : ManifestReader) :
    (∀ e ∈ ((SsbFirefox.init url nm).generate_profile home net' readGeckoId'
        ((SsbFirefox.init url nm).generate_profile home net readGeckoId FS.empty).fs).events,
      ∀ c, e ≠ .writeFile ((SsbFirefox.init url nm).profile_path home ++
          ["chrome", "userChrome.css"]) c ∧
        e ≠ .writeFile ((SsbFirefox.init url nm).profile_path home ++ ["user.js"]) c) ∧
    ((SsbFirefox.init url nm).generate_profile home net' readGeckoId'
        ((SsbFirefox.init url nm).generate_profile home net readGeckoId
          FS.empty).fs).fs.lookupFile
        ((SsbFirefox.init url nm).profile_path home ++ ["chrome", "userChrome.css"]) =
      ((SsbFirefox.init url nm).generate_profile home net readGeckoId
          FS.empty).fs.lookupFile
        ((SsbFirefox.init url nm).profile_path home ++ ["chrome", "userChrome.css"]) ∧
    ((SsbFirefox.init url nm).generate_profile home net' readGeckoId'
        ((SsbFirefox.init url nm).generate_profile home net readGeckoId
          FS.empty).fs).fs.lookupFile
        ((SsbFirefox.init url nm).profile_path home ++ ["user.js"]) =
      ((SsbFirefox.init url nm).generate_profile home net readGeckoId
          FS.empty).fs.lookupFile
        ((SsbFirefox.init url nm).profile_path home ++ ["user.js"]) := by
  obtain ⟨hcss1, hjs1⟩ := profile_run_one home (SsbFirefox.init url nm) net readGeckoId
  have hr2 : (SsbFirefox.init url nm).generate_profile home net' readGeckoId'
      ((SsbFirefox.init url nm).generate_profile home net readGeckoId FS.empty).fs =
      (SsbFirefox.init url nm).install_ublock_origin home net' readGeckoId'
        ((SsbFirefox.init url nm).generate_profile home net readGeckoId FS.empty).fs := by
    rw [SsbFirefox.generate_profile,
      make_user_css_skip home _ _ (by rw [FS.pathExists, hcss1]; rfl),
      andThen_eval _ _ _ _ _ _
        (make_user_js_skip home _ _ (by rw [FS.pathExists, hjs1]; rfl)),
      andThen_ok]
    rfl
  refine ⟨?_, ?_, ?_⟩
  · intro e he c
    rw [hr2] at he
    constructor
    · intro heq
      subst heq
      rcases install_events_writes home _ net' readGeckoId' _ _ _ he with hp | ⟨gid, hp⟩
      · exact absurd hp (append_ne _ (cons_ne_of_head _ _ (by decide)))
      · exact absurd hp (append_ne _ (cons_ne_of_head _ _ (by decide)))
    · intro heq
      subst heq
      rcases install_events_writes home _ net' readGeckoId' _ _ _ he with hp | ⟨gid, hp⟩
      · exact absurd hp (append_ne _ (cons_ne_of_head _ _ (by decide)))
      · exact absurd hp (append_ne _ (cons_ne_of_head _ _ (by decide)))
  · rw [hr2]
    exact install_preserves_lookup home _ net' readGeckoId' _ _
      (fun gid => append_ne _ (cons_ne_of_head _ _ (by decide)))
      (append_ne _ (cons_ne_of_head _ _ (by decide)))
  · rw [hr2]
    exact install_preserves_lookup home _ net' readGeckoId' _ _
      (fun gid => append_ne _ (cons_ne_of_head _ _ (by decide)))
      (append_ne _ (cons_ne_of_head _ _ (by decide)))

/-- Witness for C6: concrete double run (network down, so the extension
retry fetches but the style and preference files are untouched and keep
their first-run contents). -/
theorem C6_witness :
    ((SsbFirefox.init "https://s.com" (some "site")).generate_profile ["h"]
        (fun _ => none) (fun _ => none)
        ((SsbFirefox.init "https://s.com" (some "site")).generate_profile ["h"]
          (fun _ => none) (fun _ => none) FS.empty).fs).fs.lookupFile
      ["h", ".local", "share", "ssb", "site", "profile", "user.js"] =
    ((SsbFirefox.init "https://s.com" (some "site")).generate_profile ["h"]
        (fun _ => none) (fun _ => none) FS.empty).fs.lookupFile
      ["h", ".local", "share", "ssb", "site", "profile", "user.js"] := by
  exact ( C6_theorem ["h"] "https://s.com" (some "site")
    (fun _ => none) (fun _ => none) (fun _ => none) (fun _ => none)).2.2

/-! ### Register pipeline evaluation (claims C3 and C7) -/

theorem init_url (url : String) (nm : Option String) :
    (SsbFirefox.init url nm).url = url := rfl

theorem not_append_cons_pre_self (p : Path) (a : String) (as : List String) :
    ¬ (p ++ (a :: as) <+: p) := by
  intro h
  have hl := h.length_le
  simp at hl

theorem profile_sub_ne_config_sub (home : Path) (s : SsbFirefox)
    (l bs : List String) (b : String) (hb : "profile" ≠ b) :
    s.profile_path home ++ l ≠ s.config_path home ++ (b :: bs) := by
  rw [SsbFirefox.profile_path, List.append_assoc]
  refine append_ne _ ?_
  rw [List.singleton_append]
  exact cons_ne_of_head _ _ hb

theorem config_sub_not_pre_profile_sub (home : Path) (s : SsbFirefox) (a : String)
    (as l : List String) (ha : a ≠ "profile") :
    ¬ (s.config_path home ++ (a :: as) <+: s.profile_path home ++ l) := by
  rw [SsbFirefox.profile_path, List.append_assoc, List.singleton_append]
  intro h
  exact not_pre_head _ _ ha (isPre_append_cancel.mp h)

theorem config_sub_not_pre_profile (home : Path) (s : SsbFirefox) (a : String)
    (as : List String) (ha : a ≠ "profile") :
    ¬ (s.config_path home ++ (a :: as) <+: s.profile_path home) := by
  rw [SsbFirefox.profile_path]
  intro h
  have h' := isPre_append_cancel.mp h
  exact not_pre_head _ _ ha h'

theorem download_icon_skip (home : Path) (s : SsbFirefox) (net : Net) (fs : FS)
    (h : fs.pathExists (s.favicon_path home) = true) :
    s.download_icon home net fs = ⟨fs, [], none⟩ := by
  simp only [SsbFirefox.download_icon]
  rw [if_pos h]

theorem download_icon_write (home : Path) (s : SsbFirefox) (net : Net) (fs : FS)
    (rico : HttpResponse)
    (habs : fs.pathExists (s.favicon_path home) = false)
    (hresp : net ("https://" ++ hostname s.url ++ "/favicon.ico") = some rico) :
    s.download_icon home net fs =
      ⟨(fs.mkdirP (s.config_path home)).writeFile (s.favicon_path home) rico.content,
        [.mkdirP (s.config_path home),
         .httpGet ("https://" ++ hostname s.url ++ "/favicon.ico"),
         .writeFile (s.favicon_path home) rico.content], none⟩ := by
  simp only [SsbFirefox.download_icon]
  rw [if_neg (by simp [habs]), hresp,
    show (s.favicon_path home).dropLast = s.config_path home from by
      rw [SsbFirefox.favicon_path, List.dropLast_concat]]

/-- Full evaluation of `generate_desktop_file` from the empty filesystem
when every fetch succeeds: the symlink is created first, then the profile
is materialized, then the favicon is downloaded, and the descriptor is
written last. -/
theorem register_from_empty (home : Path) (s : SsbFirefox) (net : Net)
    (readGeckoId : ManifestReader) (r1 r2 rico : HttpResponse) (link gid : String)
    (h1 : net addon_url = some r1) (h1s : r1.statusOk = true)
    (hf : findXpiLink r1.content = some link)
    (h2 : net link = some r2) (h2s : r2.statusOk = true)
    (hg : readGeckoId r2.content = some gid)
    (hico : net ("https://" ++ hostname s.url ++ "/favicon.ico") = some rico) :
    s.generate_desktop_file home net readGeckoId FS.empty =
      ⟨((((((((((FS.empty.addLink (s.desktop_file_symlink home)
            (relpath (s.desktop_file home)
              ((s.desktop_file_symlink home).dropLast))).mkdirP
          (s.profile_path home ++ ["chrome"])).writeFile
          (s.profile_path home ++ ["chrome", "userChrome.css"])
            user_chrome_contents).mkdirP
          (s.profile_path home)).writeFile
          (s.profile_path home ++ ["user.js"]) user_js_contents).mkdirP
          (s.profile_path home ++ ["extensions"])).writeFile
          (s.profile_path home ++ ["extensions", gid ++ ".xpi"]) r2.content).writeFile
          (s.profile_path home ++ ["extensions", "ublock_origin_installed"]) "").mkdirP
          (s.config_path home)).writeFile
          (s.favicon_path home) rico.content).writeFile
          (s.desktop_file home)
          (desktop_file_contents s.name (String.intercalate " " (s.command home))
            (pathStr (s.favicon_path home)) s.wm_class),
        (([.symlinkTo (s.desktop_file_symlink home)
            (relpath (s.desktop_file home) ((s.desktop_file_symlink home).dropLast))] ++
          (([.mkdirP (s.profile_path home ++ ["chrome"]),
             .writeFile (s.profile_path home ++ ["chrome", "userChrome.css"])
               user_chrome_contents] ++
            [.mkdirP (s.profile_path home),
             .writeFile (s.profile_path home ++ ["user.js"]) user_js_contents]) ++
           [.httpGet addon_url, .httpGet link,
            .mkdirP (s.profile_path home ++ ["extensions"]),
            .writeFile (s.profile_path home ++ ["extensions", gid ++ ".xpi"]) r2.content,
            .writeFile (s.profile_path home ++
              ["extensions", "ublock_origin_installed"]) ""])) ++
          [.mkdirP (s.config_path home),
           .httpGet ("https://" ++ hostname s.url ++ "/favicon.ico"),
           .writeFile (s.favicon_path home) rico.content]) ++
          [.writeFile (s.desktop_file home)
            (desktop_file_contents s.name (String.intercalate " " (s.command home))
              (pathStr (s.favicon_path home)) s.wm_class)],
        none⟩ := by
  have hcss := make_user_css_write home s
    (FS.empty.addLink (s.desktop_file_symlink home)
      (relpath (s.desktop_file home) ((s.desktop_file_symlink home).dropLast))) (by rfl)
  have hjsabs : (((FS.empty.addLink (s.desktop_file_symlink home)
      (relpath (s.desktop_file home) ((s.desktop_file_symlink home).dropLast))).mkdirP
        (s.profile_path home ++ ["chrome"])).writeFile
        (s.profile_path home ++ ["chrome", "userChrome.css"])
          user_chrome_contents).pathExists (s.profile_path home ++ ["user.js"]) = false := by
    rw [FS.pathExists, lookupFile_writeFile, if_neg (userChrome_ne_userJs home s)]
    rw [show ((FS.empty.addLink (s.desktop_file_symlink home)
      (relpath (s.desktop_file home) ((s.desktop_file_symlink home).dropLast))).mkdirP
        (s.profile_path home ++ ["chrome"])).lookupFile
        (s.profile_path home ++ ["user.js"]) = none from rfl]
    rw [show (((FS.empty.addLink (s.desktop_file_symlink home)
      (relpath (s.desktop_file home) ((s.desktop_file_symlink home).dropLast))).mkdirP
        (s.profile_path home ++ ["chrome"])).writeFile
        (s.profile_path home ++ ["chrome", "userChrome.css"])
          user_chrome_contents).dirs =
      (s.profile_path home ++ ["chrome"]).inits ++ [] from rfl]
    rw [contains_eq_false _ _ (by
      intro hm
      rcases List.mem_append.mp hm with hm | hm
      · exact not_pre_head _ _ (by decide)
          (isPre_append_cancel.mp ((List.mem_inits _ _).mp hm))
      · simp at hm)]
    rfl
  have hjs := make_user_js_write home s _ hjsabs
  have hsentabs : (((((FS.empty.addLink (s.desktop_file_symlink home)
      (relpath (s.desktop_file home) ((s.desktop_file_symlink home).dropLast))).mkdirP
        (s.profile_path home ++ ["chrome"])).writeFile
        (s.profile_path home ++ ["chrome", "userChrome.css"])
          user_chrome_contents).mkdirP (s.profile_path home)).writeFile
        (s.profile_path home ++ ["user.js"]) user_js_contents).pathExists
      (s.profile_path home ++ ["extensions", "ublock_origin_installed"]) = false := by
    rw [FS.pathExists, lookupFile_writeFile,
      if_neg (append_ne _ (cons_ne_of_head _ _ (by decide))), lookupFile_mkdirP,
      lookupFile_writeFile, if_neg (append_ne _ (cons_ne_of_head _ _ (by decide)))]
    rw [show ((FS.empty.addLink (s.desktop_file_symlink home)
      (relpath (s.desktop_file home) ((s.desktop_file_symlink home).dropLast))).mkdirP
        (s.profile_path home ++ ["chrome"])).lookupFile
        (s.profile_path home ++ ["extensions", "ublock_origin_installed"]) =
      none from rfl]
    rw [show (((((FS.empty.addLink (s.desktop_file_symlink home)
      (relpath (s.desktop_file home) ((s.desktop_file_symlink home).dropLast))).mkdirP
        (s.profile_path home ++ ["chrome"])).writeFile
        (s.profile_path home ++ ["chrome", "userChrome.css"])
          user_chrome_contents).mkdirP (s.profile_path home)).writeFile
        (s.profile_path home ++ ["user.js"]) user_js_contents).dirs =
      (s.profile_path home).inits ++ ((s.profile_path home ++ ["chrome"]).inits ++ [])
      from rfl]
    rw [contains_eq_false _ _ (by
      intro hm
      rcases List.mem_append.mp hm with hm | hm
      · exact not_append_cons_pre_self _ _ _ ((List.mem_inits _ _).mp hm)
      rcases List.mem_append.mp hm with hm | hm
      · exact not_pre_head _ _ (by decide)
          (isPre_append_cancel.mp ((List.mem_inits _ _).mp hm))
      · simp at hm)]
    rfl
  have hinst := install_eval_success home s net readGeckoId _ r1 r2 link gid hsentabs
    h1 h1s hf h2 h2s hg
  have hgp : s.generate_profile home net readGeckoId
      (FS.empty.addLink (s.desktop_file_symlink home)
        (relpath (s.desktop_file home) ((s.desktop_file_symlink home).dropLast))) =
      ⟨(((((((FS.empty.addLink (s.desktop_file_symlink home)
            (relpath (s.desktop_file home)
              ((s.desktop_file_symlink home).dropLast))).mkdirP
          (s.profile_path home ++ ["chrome"])).writeFile
          (s.profile_path home ++ ["chrome", "userChrome.css"])
            user_chrome_contents).mkdirP
          (s.profile_path home)).writeFile
          (s.profile_path home ++ ["user.js"]) user_js_contents).mkdirP
          (s.profile_path home ++ ["extensions"])).writeFile
          (s.profile_path home ++ ["extensions", gid ++ ".xpi"]) r2.content).writeFile
          (s.profile_path home ++ ["extensions", "ublock_origin_installed"]) "",
        ([.mkdirP (s.profile_path home ++ ["chrome"]),
          .writeFile (s.profile_path home ++ ["chrome", "userChrome.css"])
            user_chrome_contents] ++
         [.mkdirP (s.profile_path home),
          .writeFile (s.profile_path home ++ ["user.js"]) user_js_contents]) ++
         [.httpGet addon_url, .httpGet link,
          .mkdirP (s.profile_path home ++ ["extensions"]),
          .writeFile (s.profile_path home ++ ["extensions", gid ++ ".xpi"]) r2.content,
          .writeFile (s.profile_path home ++
            ["extensions", "ublock_origin_installed"]) ""],
        none⟩ := by
    rw [SsbFirefox.generate_profile, hcss, andThen_eval _ _ _ _ _ _ hjs,
      andThen_eval _ _ _ _ _ _ hinst]
  have hfavabs : ((((((((FS.empty.addLink (s.desktop_file_symlink home)
      (relpath (s.desktop_file home) ((s.desktop_file_symlink home).dropLast))).mkdirP
        (s.profile_path home ++ ["chrome"])).writeFile
        (s.profile_path home ++ ["chrome", "userChrome.css"])
          user_chrome_contents).mkdirP (s.profile_path home)).writeFile
        (s.profile_path home ++ ["user.js"]) user_js_contents).mkdirP
        (s.profile_path home ++ ["extensions"])).writeFile
        (s.profile_path home ++ ["extensions", gid ++ ".xpi"]) r2.content).writeFile
        (s.profile_path home ++ ["extensions", "ublock_origin_installed"]) "").pathExists
      (s.favicon_path home) = false := by
    rw [SsbFirefox.favicon_path]
    rw [FS.pathExists, lookupFile_writeFile,
      if_neg (profile_sub_ne_config_sub home s _ _ _ (by decide)),
      lookupFile_writeFile,
      if_neg (profile_sub_ne_config_sub home s _ _ _ (by decide)),
      lookupFile_mkdirP, lookupFile_writeFile,
      if_neg (profile_sub_ne_config_sub home s _ _ _ (by decide)),
      lookupFile_mkdirP, lookupFile_writeFile,
      if_neg (profile_sub_ne_config_sub home s _ _ _ (by decide))]
    rw [show ((FS.empty.addLink (s.desktop_file_symlink home)
      (relpath (s.desktop_file home) ((s.desktop_file_symlink home).dropLast))).mkdirP
        (s.profile_path home ++ ["chrome"])).lookupFile
        (s.config_path home ++ ["favicon.ico"]) = none from rfl]
    rw [show ((((((((FS.empty.addLink (s.desktop_file_symlink home)
      (relpath (s.desktop_file home) ((s.desktop_file_symlink home).dropLast))).mkdirP
        (s.profile_path home ++ ["chrome"])).writeFile
        (s.profile_path home ++ ["chrome", "userChrome.css"])
          user_chrome_contents).mkdirP (s.profile_path home)).writeFile
        (s.profile_path home ++ ["user.js"]) user_js_contents).mkdirP
        (s.profile_path home ++ ["extensions"])).writeFile
        (s.profile_path home ++ ["extensions", gid ++ ".xpi"]) r2.content).writeFile
        (s.profile_path home ++ ["extensions", "ublock_origin_installed"]) "").dirs =
      (s.profile_path home ++ ["extensions"]).inits ++
        ((s.profile_path home).inits ++
          ((s.profile_path home ++ ["chrome"]).inits ++ [])) from rfl]
    rw [contains_eq_false _ _ (by
      intro hm
      rcases List.mem_append.mp hm with hm | hm
      · exact config_sub_not_pre_profile_sub home s _ _ _ (by decide)
          ((List.mem_inits _ _).mp hm)
      rcases List.mem_append.mp hm with hm | hm
      · exact config_sub_not_pre_profile home s _ _ (by decide)
          ((List.mem_inits _ _).mp hm)
      rcases List.mem_append.mp hm with hm | hm
      · exact config_sub_not_pre_profile_sub home s _ _ _ (by decide)
          ((List.mem_inits _ _).mp hm)
      · simp at hm)]
    rfl
  have hicon := download_icon_write home s net _ rico hfavabs hico
  simp only [SsbFirefox.generate_desktop_file]
  rw [if_neg (by simp [show FS.empty.is_symlink (s.desktop_file_symlink home) = false
      from rfl]),
    if_neg (by simp [show FS.empty.pathExists (s.desktop_file_symlink home) = false
      from rfl])]
  rw [andThen_eval _ _ _ _ _ _ hgp, andThen_eval _ _ _ _ _ _ hicon, andThen_ok]

/-- A second `generate_desktop_file` run over the filesystem a successful
first run leaves behind: the existing symlink resolves to the descriptor
target, so nothing is raised and no symlink is created; the profile and
favicon steps skip; the descriptor alone is rewritten. -/
theorem register_again (home : Path) (s : SsbFirefox) (net' : Net)
    (g' : ManifestReader) (ucC ujC xC fC dC : String) (gid : String)
    (hhome : ".." ∉ home) (hname : s.name ≠ "..") :
    s.generate_desktop_file home net' g'
      (((((((((((FS.empty.addLink (s.desktop_file_symlink home)
            (relpath (s.desktop_file home)
              ((s.desktop_file_symlink home).dropLast))).mkdirP
          (s.profile_path home ++ ["chrome"])).writeFile
          (s.profile_path home ++ ["chrome", "userChrome.css"]) ucC).mkdirP
          (s.profile_path home)).writeFile
          (s.profile_path home ++ ["user.js"]) ujC).mkdirP
          (s.profile_path home ++ ["extensions"])).writeFile
          (s.profile_path home ++ ["extensions", gid ++ ".xpi"]) xC).writeFile
          (s.profile_path home ++ ["extensions", "ublock_origin_installed"]) "").mkdirP
          (s.config_path home)).writeFile
          (s.config_path home ++ ["favicon.ico"]) fC).writeFile
          (s.config_path home ++ ["application-menu-item.desktop"]) dC) =
      ⟨(((((((((((FS.empty.addLink (s.desktop_file_symlink home)
            (relpath (s.desktop_file home)
              ((s.desktop_file_symlink home).dropLast))).mkdirP
          (s.profile_path home ++ ["chrome"])).writeFile
          (s.profile_path home ++ ["chrome", "userChrome.css"]) ucC).mkdirP
          (s.profile_path home)).writeFile
          (s.profile_path home ++ ["user.js"]) ujC).mkdirP
          (s.profile_path home ++ ["extensions"])).writeFile
          (s.profile_path home ++ ["extensions", gid ++ ".xpi"]) xC).writeFile
          (s.profile_path home ++ ["extensions", "ublock_origin_installed"]) "").mkdirP
          (s.config_path home)).writeFile
          (s.config_path home ++ ["favicon.ico"]) fC).writeFile
          (s.config_path home ++ ["application-menu-item.desktop"]) dC).writeFile
          (s.config_path home ++ ["application-menu-item.desktop"])
          (desktop_file_contents s.name (String.intercalate " " (s.command home))
            (pathStr (s.favicon_path home)) s.wm_class),
        [.writeFile (s.config_path home ++ ["application-menu-item.desktop"])
          (desktop_file_contents s.name (String.intercalate " " (s.command home))
            (pathStr (s.favicon_path home)) s.wm_class)],
        none⟩ := by
  have hlk : (((((((((((FS.empty.addLink (s.desktop_file_symlink home)
      (relpath (s.desktop_file home)
        ((s.desktop_file_symlink home).dropLast))).mkdirP
      (s.profile_path home ++ ["chrome"])).writeFile
      (s.profile_path home ++ ["chrome", "userChrome.css"]) ucC).mkdirP
      (s.profile_path home)).writeFile
      (s.profile_path home ++ ["user.js"]) ujC).mkdirP
      (s.profile_path home ++ ["extensions"])).writeFile
      (s.profile_path home ++ ["extensions", gid ++ ".xpi"]) xC).writeFile
      (s.profile_path home ++ ["extensions", "ublock_origin_installed"]) "").mkdirP
      (s.config_path home)).writeFile
      (s.config_path home ++ ["favicon.ico"]) fC).writeFile
      (s.config_path home ++ ["application-menu-item.desktop"]) dC).lookupLink
      (s.desktop_file_symlink home) =
      some (relpath (s.desktop_file home) ((s.desktop_file_symlink home).dropLast)) := by
    show lookupA (s.desktop_file_symlink home)
      [(s.desktop_file_symlink home,
        relpath (s.desktop_file home) ((s.desktop_file_symlink home).dropLast))] = _
    rw [lookupA, if_pos rfl]
  have hsym := congrArg Option.isSome hlk
  have hres := resolveLink_relpath home s hhome hname
  have hcssx : (((((((((((FS.empty.addLink (s.desktop_file_symlink home)
      (relpath (s.desktop_file home)
        ((s.desktop_file_symlink home).dropLast))).mkdirP
      (s.profile_path home ++ ["chrome"])).writeFile
      (s.profile_path home ++ ["chrome", "userChrome.css"]) ucC).mkdirP
      (s.profile_path home)).writeFile
      (s.profile_path home ++ ["user.js"]) ujC).mkdirP
      (s.profile_path home ++ ["extensions"])).writeFile
      (s.profile_path home ++ ["extensions", gid ++ ".xpi"]) xC).writeFile
      (s.profile_path home ++ ["extensions", "ublock_origin_installed"]) "").mkdirP
      (s.config_path home)).writeFile
      (s.config_path home ++ ["favicon.ico"]) fC).writeFile
      (s.config_path home ++ ["application-menu-item.desktop"]) dC).pathExists
      (s.profile_path home ++ ["chrome", "userChrome.css"]) = true := by
    rw [FS.pathExists, lookupFile_writeFile,
      if_neg ((profile_sub_ne_config_sub home s _ _ _ (by decide)).symm),
      lookupFile_writeFile,
      if_neg ((profile_sub_ne_config_sub home s _ _ _ (by decide)).symm),
      lookupFile_mkdirP, lookupFile_writeFile,
      if_neg (append_ne _ (cons_ne_of_head _ _ (by decide))),
      lookupFile_writeFile,
      if_neg (append_ne _ (cons_ne_of_head _ _ (by decide))),
      lookupFile_mkdirP, lookupFile_writeFile,
      if_neg (append_ne _ (cons_ne_of_head _ _ (by decide))),
      lookupFile_mkdirP, lookupFile_writeFile, if_pos rfl]
    rfl
  have hjsx : (((((((((((FS.empty.addLink (s.desktop_file_symlink home)
      (relpath (s.desktop_file home)
        ((s.desktop_file_symlink home).dropLast))).mkdirP
      (s.profile_path home ++ ["chrome"])).writeFile
      (s.profile_path home ++ ["chrome", "userChrome.css"]) ucC).mkdirP
      (s.profile_path home)).writeFile
      (s.profile_path home ++ ["user.js"]) ujC).mkdirP
      (s.profile_path home ++ ["extensions"])).writeFile
      (s.profile_path home ++ ["extensions", gid ++ ".xpi"]) xC).writeFile
      (s.profile_path home ++ ["extensions", "ublock_origin_installed"]) "").mkdirP
      (s.config_path home)).writeFile
      (s.config_path home ++ ["favicon.ico"]) fC).writeFile
      (s.config_path home ++ ["application-menu-item.desktop"]) dC).pathExists
      (s.profile_path home ++ ["user.js"]) = true := by
    rw [FS.pathExists, lookupFile_writeFile,
      if_neg ((profile_sub_ne_config_sub home s _ _ _ (by decide)).symm),
      lookupFile_writeFile,
      if_neg ((profile_sub_ne_config_sub home s _ _ _ (by decide)).symm),
      lookupFile_mkdirP, lookupFile_writeFile,
      if_neg (append_ne _ (cons_ne_of_head _ _ (by decide))),
      lookupFile_writeFile,
      if_neg (append_ne _ (cons_ne_of_head _ _ (by decide))),
      lookupFile_mkdirP, lookupFile_writeFile, if_pos rfl]
    rfl
  have hsentx : (((((((((((FS.empty.addLink (s.desktop_file_symlink home)
      (relpath (s.desktop_file home)
        ((s.desktop_file_symlink home).dropLast))).mkdirP
      (s.profile_path home ++ ["chrome"])).writeFile
      (s.profile_path home ++ ["chrome", "userChrome.css"]) ucC).mkdirP
      (s.profile_path home)).writeFile
      (s.profile_path home ++ ["user.js"]) ujC).mkdirP
      (s.profile_path home ++ ["extensions"])).writeFile
      (s.profile_path home ++ ["extensions", gid ++ ".xpi"]) xC).writeFile
      (s.profile_path home ++ ["extensions", "ublock_origin_installed"]) "").mkdirP
      (s.config_path home)).writeFile
      (s.config_path home ++ ["favicon.ico"]) fC).writeFile
      (s.config_path home ++ ["application-menu-item.desktop"]) dC).pathExists
      (s.profile_path home ++ ["extensions", "ublock_origin_installed"]) = true := by
    rw [FS.pathExists, lookupFile_writeFile,
      if_neg ((profile_sub_ne_config_sub home s _ _ _ (by decide)).symm),
      lookupFile_writeFile,
      if_neg ((profile_sub_ne_config_sub home s _ _ _ (by decide)).symm),
      lookupFile_mkdirP, lookupFile_writeFile, if_pos rfl]
    rfl
  have hfavx : (((((((((((FS.empty.addLink (s.desktop_file_symlink home)
      (relpath (s.desktop_file home)
        ((s.desktop_file_symlink home).dropLast))).mkdirP
      (s.profile_path home ++ ["chrome"])).writeFile
      (s.profile_path home ++ ["chrome", "userChrome.css"]) ucC).mkdirP
      (s.profile_path home)).writeFile
      (s.profile_path home ++ ["user.js"]) ujC).mkdirP
      (s.profile_path home ++ ["extensions"])).writeFile
      (s.profile_path home ++ ["extensions", gid ++ ".xpi"]) xC).writeFile
      (s.profile_path home ++ ["extensions", "ublock_origin_installed"]) "").mkdirP
      (s.config_path home)).writeFile
      (s.config_path home ++ ["favicon.ico"]) fC).writeFile
      (s.config_path home ++ ["application-menu-item.desktop"]) dC).pathExists
      (s.config_path home ++ ["favicon.ico"]) = true := by
    rw [FS.pathExists, lookupFile_writeFile,
      if_neg (append_ne _ (cons_ne_of_head _ _ (by decide))),
      lookupFile_writeFile, if_pos rfl]
    rfl
  have hinstskip : s.install_ublock_origin home net' g'
      (((((((((((FS.empty.addLink (s.desktop_file_symlink home)
        (relpath (s.desktop_file home)
          ((s.desktop_file_symlink home).dropLast))).mkdirP
        (s.profile_path home ++ ["chrome"])).writeFile
        (s.profile_path home ++ ["chrome", "userChrome.css"]) ucC).mkdirP
        (s.profile_path home)).writeFile
        (s.profile_path home ++ ["user.js"]) ujC).mkdirP
        (s.profile_path home ++ ["extensions"])).writeFile
        (s.profile_path home ++ ["extensions", gid ++ ".xpi"]) xC).writeFile
        (s.profile_path home ++ ["extensions", "ublock_origin_installed"]) "").mkdirP
        (s.config_path home)).writeFile
        (s.config_path home ++ ["favicon.ico"]) fC).writeFile
        (s.config_path home ++ ["application-menu-item.desktop"]) dC) =
      ⟨(((((((((((FS.empty.addLink (s.desktop_file_symlink home)
        (relpath (s.desktop_file home)
          ((s.desktop_file_symlink home).dropLast))).mkdirP
        (s.profile_path home ++ ["chrome"])).writeFile
        (s.profile_path home ++ ["chrome", "userChrome.css"]) ucC).mkdirP
        (s.profile_path home)).writeFile
        (s.profile_path home ++ ["user.js"]) ujC).mkdirP
        (s.profile_path home ++ ["extensions"])).writeFile
        (s.profile_path home ++ ["extensions", gid ++ ".xpi"]) xC).writeFile
        (s.profile_path home ++ ["extensions", "ublock_origin_installed"]) "").mkdirP
        (s.config_path home)).writeFile
        (s.config_path home ++ ["favicon.ico"]) fC).writeFile
        (s.config_path home ++ ["application-menu-item.desktop"]) dC), [], none⟩ := by
    simp only [SsbFirefox.install_ublock_origin]
    rw [if_pos hsentx]
  have hgp2 : s.generate_profile home net' g'
      (((((((((((FS.empty.addLink (s.desktop_file_symlink home)
        (relpath (s.desktop_file home)
          ((s.desktop_file_symlink home).dropLast))).mkdirP
        (s.profile_path home ++ ["chrome"])).writeFile
        (s.profile_path home ++ ["chrome", "userChrome.css"]) ucC).mkdirP
        (s.profile_path home)).writeFile
        (s.profile_path home ++ ["user.js"]) ujC).mkdirP
        (s.profile_path home ++ ["extensions"])).writeFile
        (s.profile_path home ++ ["extensions", gid ++ ".xpi"]) xC).writeFile
        (s.profile_path home ++ ["extensions", "ublock_origin_installed"]) "").mkdirP
        (s.config_path home)).writeFile
        (s.config_path home ++ ["favicon.ico"]) fC).writeFile
        (s.config_path home ++ ["application-menu-item.desktop"]) dC) =
      ⟨(((((((((((FS.empty.addLink (s.desktop_file_symlink home)
        (relpath (s.desktop_file home)
          ((s.desktop_file_symlink home).dropLast))).mkdirP
        (s.profile_path home ++ ["chrome"])).writeFile
        (s.profile_path home ++ ["chrome", "userChrome.css"]) ucC).mkdirP
        (s.profile_path home)).writeFile
        (s.profile_path home ++ ["user.js"]) ujC).mkdirP
        (s.profile_path home ++ ["extensions"])).writeFile
        (s.profile_path home ++ ["extensions", gid ++ ".xpi"]) xC).writeFile
        (s.profile_path home ++ ["extensions", "ublock_origin_installed"]) "").mkdirP
        (s.config_path home)).writeFile
        (s.config_path home ++ ["favicon.ico"]) fC).writeFile
        (s.config_path home ++ ["application-menu-item.desktop"]) dC), [], none⟩ := by
    rw [SsbFirefox.generate_profile, make_user_css_skip home s _ hcssx,
      andThen_eval _ _ _ _ _ _ (make_user_js_skip home s _ hjsx),
      andThen_eval _ _ _ _ _ _ hinstskip]
    rfl
  have hicox := download_icon_skip home s net' _ (by
    rw [show s.favicon_path home = s.config_path home ++ ["favicon.ico"] from rfl]
    exact hfavx)
  simp only [SsbFirefox.generate_desktop_file]
  rw [if_pos (by rw [FS.is_symlink, hlk]; rfl),
    if_neg (show ¬ _ ≠ _ from fun hne => hne (by rw [FS.resolveLink, hlk]; exact hres))]
  rw [andThen_eval _ _ _ _ _ _ hgp2, andThen_eval _ _ _ _ _ _ hicox, andThen_ok]
  rfl

theorem reload_ok (home : Path) (s : SsbFirefox) (fs : FS) :
    s.reload_desktop_files home 0 fs =
      ⟨fs, [.updateDesktopDatabase ((s.desktop_file_symlink home).dropLast)], none⟩ := rfl

/-! ### Claim C7 -/

/-- Claim C7: register twice for the same identity.  The first call (from
an empty filesystem, all fetches succeeding) creates the symlink and does
not raise; the second call finds the existing symlink resolving to the
descriptor target, raises nothing, creates no symlink, performs exactly
one action: rewriting the descriptor with the current name, space-joined
command line, favicon path and window class. -/
theorem C7_theorem (home : Path) (url : String) (nm : Option String)
    (net net' : Net) (readGeckoId readGeckoId' : ManifestReader)
    (r1 r2 rico : HttpResponse) (link gid : String)
    (hhome : ".." ∉ home) (hname : (SsbFirefox.init url nm).name ≠ "..")
    (h1 : net addon_url = some r1) (h1s : r1.statusOk = true)
    (hf : findXpiLink r1.content = some link)
    (h2 : net link = some r2) (h2s : r2.statusOk = true)
    (hg : readGeckoId r2.content = some gid)
    (hico : net ("https://" ++ hostname url ++ "/favicon.ico") = some rico) :
    (Event.symlinkTo ((SsbFirefox.init url nm).desktop_file_symlink home)
        (relpath ((SsbFirefox.init url nm).desktop_file home)
          (((SsbFirefox.init url nm).desktop_file_symlink home).dropLast)) ∈
      ((SsbFirefox.init url nm).generate_desktop_file home net readGeckoId
        FS.empty).events) ∧
    ((SsbFirefox.init url nm).generate_desktop_file home net readGeckoId
      FS.empty).err = none ∧
    (SsbFirefox.init url nm).generate_desktop_file home net' readGeckoId'
        ((SsbFirefox.init url nm).generate_desktop_file home net readGeckoId
          FS.empty).fs =
      ⟨(((SsbFirefox.init url nm).generate_desktop_file home net readGeckoId
            FS.empty).fs).writeFile
          ((SsbFirefox.init url nm).desktop_file home)
          (desktop_file_contents (SsbFirefox.init url nm).name
            (String.intercalate " " ((SsbFirefox.init url nm).command home))
            (pathStr ((SsbFirefox.init url nm).favicon_path home))
            (SsbFirefox.init url nm).wm_class),
        [.writeFile ((SsbFirefox.init url nm).desktop_file home)
          (desktop_file_contents (SsbFirefox.init url nm).name
            (String.intercalate " " ((SsbFirefox.init url nm).command home))
            (pathStr ((SsbFirefox.init url nm).favicon_path home))
            (SsbFirefox.init url nm).wm_class)],
        none⟩ := by
  have hreg := register_from_empty home (SsbFirefox.init url nm) net readGeckoId
    r1 r2 rico link gid h1 h1s hf h2 h2s hg hico
  refine ⟨?_, ?_, ?_⟩
  · rw [hreg]
    simp
  · rw [hreg]
  · rw [hreg]
    exact register_again home (SsbFirefox.init url nm) net' readGeckoId'
      user_chrome_contents user_js_contents r2.content rico.content
      (desktop_file_contents (SsbFirefox.init url nm).name
        (String.intercalate " " ((SsbFirefox.init url nm).command home))
        (pathStr ((SsbFirefox.init url nm).favicon_path home))
        (SsbFirefox.init url nm).wm_class)
      gid hhome hname

/-- Witness for C7: a concrete double registration of `https://s.com` as
`site`. -/
theorem C7_witness :
    Event.symlinkTo ["h", ".local", "share", "applications", "site.desktop"]
        ["..", "ssb", "site", "application-menu-item.desktop"] ∈
      ((SsbFirefox.init "https://s.com" (some "site")).generate_desktop_file ["h"]
        (fun u =>
          if u = addon_url then
            some ⟨true, "<a href=\"https://dl/ublock1.xpi\">x</a>"⟩
          else if u = "https://dl/ublock1.xpi" then some ⟨true, "BYTES"⟩
          else if u = "https://s.com/favicon.ico" then some ⟨true, "ICO"⟩
          else none)
        (fun b => if b = "BYTES" then some "uBlock0@raymondhill.net" else none)
        FS.empty).events ∧
    ((SsbFirefox.init "https://s.com" (some "site")).generate_desktop_file ["h"]
        (fun u =>
          if u = addon_url then
            some ⟨true, "<a href=\"https://dl/ublock1.xpi\">x</a>"⟩
          else if u = "https://dl/ublock1.xpi" then some ⟨true, "BYTES"⟩
          else if u = "https://s.com/favicon.ico" then some ⟨true, "ICO"⟩
          else none)
        (fun b => if b = "BYTES" then some "uBlock0@raymondhill.net" else none)
        FS.empty).err = none := by
  have h := C7_theorem ["h"] "https://s.com" (some "site")
    (fun u =>
      if u = addon_url then
        some ⟨true, "<a href=\"https://dl/ublock1.xpi\">x</a>"⟩
      else if u = "https://dl/ublock1.xpi" then some ⟨true, "BYTES"⟩
      else if u = "https://s.com/favicon.ico" then some ⟨true, "ICO"⟩
      else none)
    (fun u =>
      if u = addon_url then
        some ⟨true, "<a href=\"https://dl/ublock1.xpi\">x</a>"⟩
      else if u = "https://dl/ublock1.xpi" then some ⟨true, "BYTES"⟩
      else if u = "https://s.com/favicon.ico" then some ⟨true, "ICO"⟩
      else none)
    (fun b => if b = "BYTES" then some "uBlock0@raymondhill.net" else none)
    (fun b => if b = "BYTES" then some "uBlock0@raymondhill.net" else none)
    ⟨true, "<a href=\"https://dl/ublock1.xpi\">x</a>"⟩ ⟨true, "BYTES"⟩ ⟨true, "ICO"⟩
    "https://dl/ublock1.xpi" "uBlock0@raymondhill.net"
    (by decide) (by decide) (by decide) (by decide) (by decide) (by decide) (by decide)
    (by decide) (by decide)
  exact ⟨h.1, h.2.1⟩

/-! ### Claim C3 -/

set_option maxRecDepth 4000

/-- Claim C3 fails on the code: in register mode the first action is the
creation of the menu symlink, and the profile is materialized only
afterwards — here concretely, the trace's head is the symlink creation
while the style-file write appears later in the same trace. -/
theorem C3_counterexample :
    ((mainOp ["h"] .applicationMenu "https://s.com" (some "site")
        (fun u =>
          if u = addon_url then
            some ⟨true, "<a href=\"https://dl/ublock1.xpi\">x</a>"⟩
          else if u = "https://dl/ublock1.xpi" then some ⟨true, "BYTES"⟩
          else if u = "https://s.com/favicon.ico" then some ⟨true, "ICO"⟩
          else none)
        (fun b => if b = "BYTES" then some "uBlock0@raymondhill.net" else none)
        (fun _ fs => (0, fs)) 0 FS.empty).events.head? =
      some (.symlinkTo ["h", ".local", "share", "applications", "site.desktop"]
        ["..", "ssb", "site", "application-menu-item.desktop"])) ∧
    Event.writeFile ["h", ".local", "share", "ssb", "site", "profile", "chrome",
        "userChrome.css"] user_chrome_contents ∈
      (mainOp ["h"] .applicationMenu "https://s.com" (some "site")
        (fun u =>
          if u = addon_url then
            some ⟨true, "<a href=\"https://dl/ublock1.xpi\">x</a>"⟩
          else if u = "https://dl/ublock1.xpi" then some ⟨true, "BYTES"⟩
          else if u = "https://s.com/favicon.ico" then some ⟨true, "ICO"⟩
          else none)
        (fun b => if b = "BYTES" then some "uBlock0@raymondhill.net" else none)
        (fun _ fs => (0, fs)) 0 FS.empty).events := by
  exact ⟨by decide, by decide⟩

/-- Claim C3, amended: in register mode the order of operations is:
symlink validation and creation first, then profile materialization, then
favicon download, then the descriptor write, and the menu-database refresh
last; in particular the menu symlink is created before the profile is
materialized. -/
theorem C3_amended_theorem (home : Path) (url : String) (nm : Option String)
    (net : Net) (readGeckoId : ManifestReader)
    (browser : List String → FS → Nat × FS)
    (r1 r2 rico : HttpResponse) (link gid : String)
    (h1 : net addon_url = some r1) (h1s : r1.statusOk = true)
    (hf : findXpiLink r1.content = some link)
    (h2 : net link = some r2) (h2s : r2.statusOk = true)
    (hg : readGeckoId r2.content = some gid)
    (hico : net ("https://" ++ hostname url ++ "/favicon.ico") = some rico) :
    mainOp home .applicationMenu url nm net readGeckoId browser 0 FS.empty =
      ⟨((((((((((FS.empty.addLink
            ((SsbFirefox.init url nm).desktop_file_symlink home)
            (relpath ((SsbFirefox.init url nm).desktop_file home)
              (((SsbFirefox.init url nm).desktop_file_symlink home).dropLast))).mkdirP
          ((SsbFirefox.init url nm).profile_path home ++ ["chrome"])).writeFile
          ((SsbFirefox.init url nm).profile_path home ++ ["chrome", "userChrome.css"])
            user_chrome_contents).mkdirP
          ((SsbFirefox.init url nm).profile_path home)).writeFile
          ((SsbFirefox.init url nm).profile_path home ++ ["user.js"])
            user_js_contents).mkdirP
          ((SsbFirefox.init url nm).profile_path home ++ ["extensions"])).writeFile
          ((SsbFirefox.init url nm).profile_path home ++
            ["extensions", gid ++ ".xpi"]) r2.content).writeFile
          ((SsbFirefox.init url nm).profile_path home ++
            ["extensions", "ublock_origin_installed"]) "").mkdirP
          ((SsbFirefox.init url nm).config_path home)).writeFile
          ((SsbFirefox.init url nm).favicon_path home) rico.content).writeFile
          ((SsbFirefox.init url nm).desktop_file home)
          (desktop_file_contents (SsbFirefox.init url nm).name
            (String.intercalate " " ((SsbFirefox.init url nm).command home))
            (pathStr ((SsbFirefox.init url nm).favicon_path home))
            (SsbFirefox.init url nm).wm_class),
        ((([.symlinkTo ((SsbFirefox.init url nm).desktop_file_symlink home)
            (relpath ((SsbFirefox.init url nm).desktop_file home)
              (((SsbFirefox.init url nm).desktop_file_symlink home).dropLast))] ++
          (([.mkdirP ((SsbFirefox.init url nm).profile_path home ++ ["chrome"]),
             .writeFile ((SsbFirefox.init url nm).profile_path home ++
               ["chrome", "userChrome.css"]) user_chrome_contents] ++
            [.mkdirP ((SsbFirefox.init url nm).profile_path home),
             .writeFile ((SsbFirefox.init url nm).profile_path home ++ ["user.js"])
               user_js_contents]) ++
           [.httpGet addon_url, .httpGet link,
            .mkdirP ((SsbFirefox.init url nm).profile_path home ++ ["extensions"]),
            .writeFile ((SsbFirefox.init url nm).profile_path home ++
              ["extensions", gid ++ ".xpi"]) r2.content,
            .writeFile ((SsbFirefox.init url nm).profile_path home ++
              ["extensions", "ublock_origin_installed"]) ""])) ++
          [.mkdirP ((SsbFirefox.init url nm).config_path home),
           .httpGet ("https://" ++ hostname (SsbFirefox.init url nm).url ++
             "/favicon.ico"),
           .writeFile ((SsbFirefox.init url nm).favicon_path home) rico.content]) ++
          [.writeFile ((SsbFirefox.init url nm).desktop_file home)
            (desktop_file_contents (SsbFirefox.init url nm).name
              (String.intercalate " " ((SsbFirefox.init url nm).command home))
              (pathStr ((SsbFirefox.init url nm).favicon_path home))
              (SsbFirefox.init url nm).wm_class)]) ++
          [.updateDesktopDatabase
            (((SsbFirefox.init url nm).desktop_file_symlink home).dropLast)],
        none⟩ := by
  have hreg := register_from_empty home (SsbFirefox.init url nm) net readGeckoId
    r1 r2 rico link gid h1 h1s hf h2 h2s hg hico
  simp only [mainOp]
  rw [hreg, andThen_eval _ _ _ _ _ _ (reload_ok home _ _)]

/-- Witness for C3: a concrete registration whose trace begins with the
symlink creation and ends with the menu-database refresh. -/
theorem C3_witness :
    ((mainOp ["h"] .applicationMenu "https://s.com" (some "site")
        (fun u =>
          if u = addon_url then
            some ⟨true, "<a href=\"https://dl/ublock1.xpi\">x</a>"⟩
          else if u = "https://dl/ublock1.xpi" then some ⟨true, "BYTES"⟩
          else if u = "https://s.com/favicon.ico" then some ⟨true, "ICO"⟩
          else none)
        (fun b => if b = "BYTES" then some "uBlock0@raymondhill.net" else none)
        (fun _ fs => (0, fs)) 0 FS.empty).events.getLast?) =
      some (.updateDesktopDatabase ["h", ".local", "share", "applications"]) := by
  rw [ C3_amended_theorem ["h"] "https://s.com" (some "site")
    (fun u =>
      if u = addon_url then
        some ⟨true, "<a href=\"https://dl/ublock1.xpi\">x</a>"⟩
      else if u = "https://dl/ublock1.xpi" then some ⟨true, "BYTES"⟩
      else if u = "https://s.com/favicon.ico" then some ⟨true, "ICO"⟩
      else none)
    (fun b => if b = "BYTES" then some "uBlock0@raymondhill.net" else none)
    (fun _ fs => (0, fs))
    ⟨true, "<a href=\"https://dl/ublock1.xpi\">x</a>"⟩ ⟨true, "BYTES"⟩ ⟨true, "ICO"⟩
    "https://dl/ublock1.xpi" "uBlock0@raymondhill.net"
    (by decide) (by decide) (by decide) (by decide) (by decide) (by decide) (by decide)]
  decide

end SSB
